import Mathlib

/-!
Verification of the DataQuest7 insurance-bundle pipeline.

The repository is a small pandas/LightGBM pipeline:
  solution.py      preprocess, predict (serving-side cleaning and inference)
  src/features.py  clean_data (training-side cleaning)
  src/train.py     compute_class_weights, train_model
  API/main.py      HTTP adapter (out of scope here)

We shallowly embed pandas DataFrames as ordered association lists of named
columns.  Cell values are either a string, a number (over an abstract numeric
carrier so that both rational test data and real-valued trigonometric
encodings fit), or a missing value (pandas NaN).  A `cats` field records which
columns have been tagged with the pandas `category` dtype.
-/

set_option maxHeartbeats 1000000

namespace DataQuest

variable {α : Type} {β : Type} {ρ : Type}

/-- One pandas cell: a string, a number, or a missing value (NaN/None). -/
inductive Value (α : Type) where
  | str (s : String)
  | num (a : α)
  | na
deriving DecidableEq, Repr

/-- A pandas DataFrame: ordered named columns plus the set of columns that
carry the `category` dtype. -/
structure DataFrame (α : Type) where
  cols : List (String × List (Value α))
  cats : List String
deriving DecidableEq, Repr

deriving instance DecidableEq for Except

/-- The empty frame. -/
def emptyDF : DataFrame α := ⟨[], []⟩

instance : Inhabited (DataFrame α) := ⟨emptyDF⟩

namespace DataFrame

/-- `c in df.columns`. -/
def hasCol (df : DataFrame α) (c : String) : Bool :=
  df.cols.any (fun p => p.1 = c)

/-- `df[c]` as a partial lookup (first matching column). -/
def getCol? (df : DataFrame α) (c : String) : Option (List (Value α)) :=
  (df.cols.find? (fun p => p.1 = c)).map Prod.snd

/-- `df[c] = v`: replace the column in place if present (pandas setitem
replaces every column carrying that label), otherwise append it at the end. -/
def setCol (df : DataFrame α) (c : String) (v : List (Value α)) : DataFrame α :=
  if df.hasCol c then
    ⟨df.cols.map (fun p => if p.1 = c then (c, v) else p), df.cats⟩
  else
    ⟨df.cols ++ [(c, v)], df.cats⟩

/-- `df.drop(columns=[c])`. -/
def dropCol (df : DataFrame α) (c : String) : DataFrame α :=
  ⟨df.cols.filter (fun p => ¬ p.1 = c), df.cats.filter (fun d => ¬ d = c)⟩

/-- `df[c] = df[c].astype('category')` guarded by `if c in df.columns`. -/
def astypeCat (df : DataFrame α) (c : String) : DataFrame α :=
  if df.hasCol c then
    if c ∈ df.cats then df else ⟨df.cols, df.cats ++ [c]⟩
  else df

/-- Number of rows (length of the first column; pandas frames are
rectangular, which we track with `wf`). -/
def nRows (df : DataFrame α) : Nat :=
  match df.cols with
  | [] => 0
  | p :: _ => p.2.length

/-- Rectangularity: every column has the common row count. -/
def wf (df : DataFrame α) : Prop :=
  ∀ p ∈ df.cols, p.2.length = df.nRows

instance wfDecidable (df : DataFrame α) : Decidable df.wf :=
  inferInstanceAs (Decidable (∀ p ∈ df.cols, p.2.length = df.nRows))

/-- Row `i` of the frame, one cell per column in column order. -/
def rowAt (df : DataFrame α) (i : Nat) : List (Value α) :=
  df.cols.map (fun p => p.2.getD i .na)

/-- `df[names]`: column selection in the given order. -/
def selectCols (df : DataFrame α) (names : List String) : DataFrame α :=
  ⟨names.map (fun c => (c, (df.getCol? c).getD [])),
   df.cats.filter (fun c => names.contains c)⟩

/-- Column labels in order. -/
def names (df : DataFrame α) : List String := df.cols.map Prod.fst

/-- `df[c]` with Python semantics: a missing column raises a KeyError. -/
def colGetE (df : DataFrame α) (c : String) : Except String (List (Value α)) :=
  match df.getCol? c with
  | none => .error ("KeyError: " ++ c)
  | some col => .ok col

end DataFrame

/-- `Series.fillna(v)` on one cell. -/
def fillV (v : Value α) : Value α → Value α
  | .na => v
  | .str s => .str s
  | .num a => .num a

/-- A guarded `if c in df.columns: df = df.drop(columns=[c])`. -/
def dropGuard (df : DataFrame α) (c : String) : DataFrame α :=
  if df.hasCol c then df.dropCol c else df

/-- `df[c] = df[c].fillna(v)` with an unguarded subscript: raises a KeyError
when the column is absent. -/
def fillReq (df : DataFrame α) (c : String) (v : Value α) :
    Except String (DataFrame α) :=
  match df.getCol? c with
  | none => .error ("KeyError: " ++ c)
  | some col => .ok (df.setCol c (col.map (fillV v)))

/-- `if c in df.columns: df[c] = df[c].fillna(v)` — the guarded variant used
by `clean_data`. -/
def fillGuardE (df : DataFrame α) (c : String) (v : Value α) :
    Except String (DataFrame α) :=
  if df.hasCol c then fillReq df c v else .ok df

/-- Tag every listed column that is present with the category dtype. -/
def astypeAll (df : DataFrame α) (l : List String) : DataFrame α :=
  l.foldl DataFrame.astypeCat df

/-! ### List-level helper lemmas for the frame operations -/

theorem find?_isSome_any (c : String) :
    ∀ (l : List (String × List (Value α))),
      (l.find? (fun p => p.1 = c)).isSome = l.any (fun p => p.1 = c)
  | [] => rfl
  | p :: l => by
    by_cases hp : p.1 = c
    · rw [List.find?_cons_of_pos _ (by simpa using hp)]
      simp [hp]
    · rw [List.find?_cons_of_neg _ (by simpa using hp)]
      simp only [List.any_cons]
      rw [find?_isSome_any c l]
      simp [hp]

theorem find?_map_setCol (c : String) (v : List (Value α)) :
    ∀ (l : List (String × List (Value α))), l.any (fun p => p.1 = c) = true →
      (l.map (fun p => if p.1 = c then (c, v) else p)).find? (fun p => p.1 = c)
        = some (c, v)
  | [], h => by simp at h
  | p :: l, h => by
    by_cases hp : p.1 = c
    · simp only [List.map_cons, if_pos hp]
      rw [List.find?_cons_of_pos _ (by simp)]
    · simp only [List.map_cons, if_neg hp]
      rw [List.find?_cons_of_neg _ (by simpa using hp)]
      apply find?_map_setCol c v l
      simp only [List.any_cons] at h
      simpa [hp] using h

theorem find?_map_setCol_other {c c' : String} (hne : c' ≠ c) (v : List (Value α)) :
    ∀ (l : List (String × List (Value α))),
      (l.map (fun p => if p.1 = c then (c, v) else p)).find? (fun p => p.1 = c')
        = l.find? (fun p => p.1 = c')
  | [] => rfl
  | p :: l => by
    by_cases hp : p.1 = c
    · simp only [List.map_cons, if_pos hp]
      rw [List.find?_cons_of_neg _ (by simpa using Ne.symm hne),
        List.find?_cons_of_neg _ (by rw [hp]; simpa using Ne.symm hne)]
      exact find?_map_setCol_other hne v l
    · simp only [List.map_cons, if_neg hp]
      by_cases hpc : p.1 = c'
      · rw [List.find?_cons_of_pos _ (by simpa using hpc),
          List.find?_cons_of_pos _ (by simpa using hpc)]
      · rw [List.find?_cons_of_neg _ (by simpa using hpc),
          List.find?_cons_of_neg _ (by simpa using hpc)]
        exact find?_map_setCol_other hne v l

theorem find?_filter_drop_self (c : String) :
    ∀ (l : List (String × List (Value α))),
      (l.filter (fun p => ¬ p.1 = c)).find? (fun p => p.1 = c) = none
  | [] => rfl
  | p :: l => by
    by_cases hp : p.1 = c
    · rw [List.filter_cons_of_neg (by simp [hp])]
      exact find?_filter_drop_self c l
    · rw [List.filter_cons_of_pos (by simpa using hp)]
      rw [List.find?_cons_of_neg _ (by simpa using hp)]
      exact find?_filter_drop_self c l

theorem find?_filter_drop_other {c c' : String} (hne : c' ≠ c) :
    ∀ (l : List (String × List (Value α))),
      (l.filter (fun p => ¬ p.1 = c)).find? (fun p => p.1 = c')
        = l.find? (fun p => p.1 = c')
  | [] => rfl
  | p :: l => by
    by_cases hp : p.1 = c
    · rw [List.filter_cons_of_neg (by simp [hp])]
      rw [List.find?_cons_of_neg _ (by rw [hp]; simpa using Ne.symm hne)]
      exact find?_filter_drop_other hne l
    · rw [List.filter_cons_of_pos (by simpa using hp)]
      by_cases hpc : p.1 = c'
      · rw [List.find?_cons_of_pos _ (by simpa using hpc),
          List.find?_cons_of_pos _ (by simpa using hpc)]
      · rw [List.find?_cons_of_neg _ (by simpa using hpc),
          List.find?_cons_of_neg _ (by simpa using hpc)]
        exact find?_filter_drop_other hne l

/-! ### Basic lemmas about the frame operations -/

namespace DataFrame

theorem getCol?_isSome_iff_hasCol (df : DataFrame α) (c : String) :
    (df.getCol? c).isSome = df.hasCol c := by
  unfold getCol? hasCol
  rw [← find?_isSome_any c df.cols]
  cases df.cols.find? (fun p => p.1 = c) <;> rfl

theorem hasCol_false_getCol? {df : DataFrame α} {c : String}
    (h : df.hasCol c = false) : df.getCol? c = none := by
  have h1 := getCol?_isSome_iff_hasCol df c
  rw [h] at h1
  exact Option.not_isSome_iff_eq_none.mp (by simp [h1])

theorem getCol?_none_hasCol {df : DataFrame α} {c : String}
    (h : df.getCol? c = none) : df.hasCol c = false := by
  have h1 := getCol?_isSome_iff_hasCol df c
  rw [h] at h1
  simpa using h1.symm

theorem getCol?_some_hasCol {df : DataFrame α} {c : String} {v : List (Value α)}
    (h : df.getCol? c = some v) : df.hasCol c = true := by
  have h1 := getCol?_isSome_iff_hasCol df c
  rw [h] at h1
  simpa using h1.symm

@[simp] theorem setCol_cats (df : DataFrame α) (c : String) (v : List (Value α)) :
    (df.setCol c v).cats = df.cats := by
  unfold setCol; split <;> rfl

@[simp] theorem dropCol_cats (df : DataFrame α) (c : String) :
    (df.dropCol c).cats = df.cats.filter (fun d => ¬ d = c) := rfl

theorem getCol?_setCol_self (df : DataFrame α) (c : String) (v : List (Value α)) :
    (df.setCol c v).getCol? c = some v := by
  unfold setCol
  split
  · next h =>
    unfold getCol?
    simp only
    rw [find?_map_setCol c v df.cols (by simpa [hasCol] using h)]
    rfl
  · next h =>
    unfold getCol?
    simp only
    have hnone : df.cols.find? (fun p => p.1 = c) = none := by
      have h2 : df.getCol? c = none := hasCol_false_getCol? (by simpa using h)
      unfold getCol? at h2
      simpa using h2
    rw [List.find?_append, hnone]
    simp [List.find?]

theorem getCol?_setCol_other (df : DataFrame α) {c c' : String}
    (hne : c' ≠ c) (v : List (Value α)) :
    (df.setCol c v).getCol? c' = df.getCol? c' := by
  unfold setCol
  split
  · unfold getCol?
    simp only
    rw [find?_map_setCol_other hne v df.cols]
  · unfold getCol?
    simp only
    rw [List.find?_append]
    have h1 : List.find? (fun p => p.1 = c') [(c, v)] = none := by
      rw [List.find?_cons_of_neg _ (by simpa using Ne.symm hne)]
      rfl
    rw [h1]
    cases df.cols.find? (fun p => p.1 = c') <;> simp

theorem hasCol_setCol_other (df : DataFrame α) {c c' : String}
    (hne : c' ≠ c) (v : List (Value α)) :
    (df.setCol c v).hasCol c' = df.hasCol c' := by
  have h1 := getCol?_isSome_iff_hasCol (df.setCol c v) c'
  have h2 := getCol?_isSome_iff_hasCol df c'
  rw [getCol?_setCol_other df hne v, h2] at h1
  exact h1.symm

theorem hasCol_setCol_self (df : DataFrame α) (c : String) (v : List (Value α)) :
    (df.setCol c v).hasCol c = true := by
  have h1 := getCol?_isSome_iff_hasCol (df.setCol c v) c
  rw [getCol?_setCol_self] at h1
  simpa using h1.symm

@[simp] theorem getCol?_dropCol_self (df : DataFrame α) (c : String) :
    (df.dropCol c).getCol? c = none := by
  unfold dropCol getCol?
  simp only
  rw [find?_filter_drop_self c df.cols]
  rfl

@[simp] theorem hasCol_dropCol_self (df : DataFrame α) (c : String) :
    (df.dropCol c).hasCol c = false := getCol?_none_hasCol (getCol?_dropCol_self df c)

theorem getCol?_dropCol_other (df : DataFrame α) {c c' : String} (hne : c' ≠ c) :
    (df.dropCol c).getCol? c' = df.getCol? c' := by
  unfold dropCol getCol?
  simp only
  rw [find?_filter_drop_other hne df.cols]

theorem hasCol_dropCol_other (df : DataFrame α) {c c' : String} (hne : c' ≠ c) :
    (df.dropCol c).hasCol c' = df.hasCol c' := by
  have h1 := getCol?_isSome_iff_hasCol (df.dropCol c) c'
  have h2 := getCol?_isSome_iff_hasCol df c'
  rw [getCol?_dropCol_other df hne, h2] at h1
  exact h1.symm

@[simp] theorem astypeCat_cols (df : DataFrame α) (c : String) :
    (df.astypeCat c).cols = df.cols := by
  unfold astypeCat
  split
  · split <;> rfl
  · rfl

@[simp] theorem getCol?_astypeCat (df : DataFrame α) (c c' : String) :
    (df.astypeCat c).getCol? c' = df.getCol? c' := by
  unfold getCol?
  rw [astypeCat_cols]

@[simp] theorem hasCol_astypeCat (df : DataFrame α) (c c' : String) :
    (df.astypeCat c).hasCol c' = df.hasCol c' := by
  unfold hasCol
  rw [astypeCat_cols]

end DataFrame

/-! ### solution.py: constants -/

/-- `FEATURE_COLUMNS` from solution.py. -/
def FEATURE_COLUMNS : List String := [
  "Policy_Cancelled_Post_Purchase",
  "Policy_Start_Year",
  "Policy_Start_Week",
  "Policy_Start_Day",
  "Grace_Period_Extensions",
  "Previous_Policy_Duration_Months",
  "Adult_Dependents",
  "Child_Dependents",
  "Infant_Dependents",
  "Existing_Policyholder",
  "Previous_Claims_Filed",
  "Years_Without_Claims",
  "Policy_Amendments_Count",
  "Underwriting_Processing_Days",
  "Vehicles_on_Policy",
  "Custom_Riders_Requested",
  "Broker_Agency_Type",
  "Deductible_Tier",
  "Acquisition_Channel",
  "Payment_Schedule",
  "Employment_Status",
  "Estimated_Annual_Income",
  "Days_Since_Quote",
  "month_sin",
  "month_cos"]

/-- `CATEGORICAL_COLUMNS` from solution.py. -/
def CATEGORICAL_COLUMNS : List String := [
  "Broker_Agency_Type",
  "Deductible_Tier",
  "Acquisition_Channel",
  "Payment_Schedule",
  "Employment_Status"]

/-- `MONTH_MAP` from solution.py. -/
def MONTH_MAP : List (String × ℚ) := [
  ("Jan", 1), ("Feb", 2), ("Mar", 3), ("Apr", 4),
  ("May", 5), ("Jun", 6), ("Jul", 7), ("Aug", 8),
  ("Sep", 9), ("Oct", 10), ("Nov", 11), ("Dec", 12)]

/-! ### solution.py: preprocess -/

/-- One cell of `df['Policy_Start_Month'].map(MONTH_MAP).fillna(1)`: a string
found in the month dictionary maps to its index; every other cell (an
unmapped string, a number, or a missing value) becomes NaN under `.map` and
is then filled with 1. -/
def monthNumV : Value α → ℚ
  | .str s => ((MONTH_MAP.find? (fun p => p.1 = s)).map Prod.snd).getD 1
  | .num _ => 1
  | .na => 1

/-- The cyclical month block of `preprocess`, parametrized by the two
trigonometric encodings `sinF m` and `cosF m` standing for
`sin(2*pi*m/12)` and `cos(2*pi*m/12)`:
if `Policy_Start_Month` is present, emit `month_sin` and `month_cos` and
drop the original column. -/
def monthStep (sinF cosF : ℚ → α) (df : DataFrame α) : DataFrame α :=
  match df.getCol? "Policy_Start_Month" with
  | none => df
  | some col =>
    let mn := col.map monthNumV
    let df1 := df.setCol "month_sin" (mn.map (fun m => Value.num (sinF m)))
    let df2 := df1.setCol "month_cos" (mn.map (fun m => Value.num (cosF m)))
    df2.dropCol "Policy_Start_Month"

/-- The guarded drop block at the head of `preprocess`: `Employer_ID`,
`Broker_ID`, `Region_Code`, then `Purchased_Coverage_Bundle`. -/
def preDrops (df : DataFrame α) : DataFrame α :=
  dropGuard (dropGuard (dropGuard (dropGuard df
    "Employer_ID") "Broker_ID") "Region_Code") "Purchased_Coverage_Bundle"

/-- `preprocess` from solution.py.  The function operates on a copy of the
caller's frame (the aliasing side is modelled separately by `preprocessPy`):
guarded drops of `Employer_ID`, `Broker_ID`, `Region_Code` and
`Purchased_Coverage_Bundle`, three unguarded fills (a missing column raises
a KeyError), the cyclical month encoding, then category tagging. -/
def preprocess [Zero α] (sinF cosF : ℚ → α) (df : DataFrame α) :
    Except String (DataFrame α) :=
  let d2 := preDrops df
  match d2.getCol? "Child_Dependents" with
  | none => .error "KeyError: Child_Dependents"
  | some cChild =>
    let d3 := d2.setCol "Child_Dependents" (cChild.map (fillV (Value.num 0)))
    match d3.getCol? "Deductible_Tier" with
    | none => .error "KeyError: Deductible_Tier"
    | some cDed =>
      let d4 := d3.setCol "Deductible_Tier" (cDed.map (fillV (Value.str "Unknown")))
      match d4.getCol? "Acquisition_Channel" with
      | none => .error "KeyError: Acquisition_Channel"
      | some cAcq =>
        let d5 := d4.setCol "Acquisition_Channel" (cAcq.map (fillV (Value.str "Unknown")))
        .ok (astypeAll (monthStep sinF cosF d5) CATEGORICAL_COLUMNS)

/-! ### solution.py: predict -/

/-- A Python exception: its type name and message. -/
structure PyErr where
  ty : String
  msg : String
deriving DecidableEq, Repr

/-- A fitted classifier as `predict` sees it: the optional
`feature_names_in_` attribute, and the `model.predict` call, which can
itself raise. -/
structure Model (α : Type) where
  featureNamesIn : Option (List String)
  pred : DataFrame α → Except PyErr (List Int)

/-- The result dictionary of `predict`: `User_ID` and `recommended_bundle`. -/
structure PredOut (α : Type) where
  userIds : List (Value α)
  recommendedBundle : List Int
deriving DecidableEq, Repr

/-- The back-fill loop of `predict`: every expected feature absent from the
frame is appended as a constant column, `"Unknown"` for the categorical
features, `0` otherwise. -/
def defaultVal [Zero α] (c : String) : Value α :=
  if c ∈ CATEGORICAL_COLUMNS then Value.str "Unknown" else Value.num 0

/-- The back-fill loop body of `predict`. -/
def backfill [Zero α] (df : DataFrame α) (expected : List String) : DataFrame α :=
  expected.foldl
    (fun d c =>
      if d.hasCol c then d
      else d.setCol c (List.replicate d.nRows (defaultVal c)))
    df

/-- The `try:` body of `predict`: check `User_ID`, extract the ids, back-fill
the expected features, select them in the model's order, and call the
classifier.  `y_pred.astype(int)` is absorbed into the integer codomain of
`Model.pred`. -/
def predictRun [Zero α] (m : Model α) (df : DataFrame α) :
    Except PyErr (PredOut α) :=
  if df.hasCol "User_ID" = false then
    .error ⟨"ValueError", "The input DataFrame must contain a 'User_ID' column."⟩
  else
    let userIds := (df.getCol? "User_ID").getD []
    let expected := m.featureNamesIn.getD FEATURE_COLUMNS
    let dfw := backfill df expected
    let X := dfw.selectCols expected
    match m.pred X with
    | .error e => .error e
    | .ok ys => .ok ⟨userIds, ys⟩

/-- The two `except` clauses of `predict`: a `ValueError` is re-raised with
its own message; any other exception is rewrapped into a `ValueError` whose
message carries the original type name and message. -/
def wrapErr (e : PyErr) : PyErr :=
  if e.ty = "ValueError" then ⟨"ValueError", e.msg⟩
  else ⟨"ValueError", "An error occurred during prediction: " ++ e.ty ++ ": " ++ e.msg⟩

/-- `predict` from solution.py. -/
def predict [Zero α] (m : Model α) (df : DataFrame α) :
    Except PyErr (PredOut α) :=
  match predictRun m df with
  | .ok o => .ok o
  | .error e => .error (wrapErr e)

/-- The exact real-valued `month_sin` encoding: `sin(2*pi*m/12)`. -/
noncomputable def monthSinF (m : ℚ) : ℝ := Real.sin (2 * Real.pi * (m : ℝ) / 12)

/-- The exact real-valued `month_cos` encoding: `cos(2*pi*m/12)`. -/
noncomputable def monthCosF (m : ℚ) : ℝ := Real.cos (2 * Real.pi * (m : ℝ) / 12)

/-! ### src/features.py: clean_data -/

/-- `CATEGORICAL_COLUMNS` from src/features.py (a different list from the
one in solution.py: it keeps `Region_Code` and `Policy_Start_Month`). -/
def FEAT_CATEGORICAL : List String := [
  "Region_Code",
  "Broker_Agency_Type",
  "Deductible_Tier",
  "Acquisition_Channel",
  "Payment_Schedule",
  "Employment_Status",
  "Policy_Start_Month"]

/-- `clean_data` from src/features.py.  Unlike `preprocess`, every fill is
guarded by a presence check, `Broker_ID` and `Region_Code` are retained and
filled (with `-1` and `"Unknown"`), and only `Employer_ID` is dropped. -/
def clean_data [Zero α] [One α] [Neg α] (df : DataFrame α) :
    Except String (DataFrame α) := do
  let d1 := dropGuard df "Employer_ID"
  let d2 ← fillGuardE d1 "Child_Dependents" (Value.num 0)
  let d3 ← fillGuardE d2 "Region_Code" (Value.str "Unknown")
  let d4 ← fillGuardE d3 "Deductible_Tier" (Value.str "Unknown")
  let d5 ← fillGuardE d4 "Acquisition_Channel" (Value.str "Unknown")
  let d6 ← fillGuardE d5 "Broker_ID" (Value.num (-1))
  return astypeAll d6 FEAT_CATEGORICAL

/-! ### src/train.py: compute_class_weights and train_model -/

/-- `y.value_counts(normalize=True)` as an association list over the distinct
labels, in first-appearance order: each label paired with its relative
frequency. -/
def valueCountsNorm (y : List Int) : List (Int × ℚ) :=
  y.dedup.map (fun c => (c, (y.count c : ℚ) / (y.length : ℚ)))

/-- `compute_class_weights` from src/train.py: the dictionary
`{c: 1 / log(1.2 + freq[c]) for c in freq.index}`. -/
noncomputable def compute_class_weights (y : List Int) : List (Int × ℝ) :=
  (valueCountsNorm y).map
    (fun p => (p.1, 1 / Real.log ((1.2 : ℝ) + (p.2 : ℝ))))

/-- The relative frequency of label `c` in `y` — the fraction of rows whose
label is `c` — stated independently, following the spec's words. -/
noncomputable def relFreq (y : List Int) (c : Int) : ℝ :=
  (y.count c : ℝ) / (y.length : ℝ)

/-- The index-based stratified holdout of `train_test_split`, abstracted over
the membership mask chosen by the splitter: row `i` goes to the validation
slice iff `mask i`.  Returns `(train, validation)`. -/
def splitByMask (mask : Nat → Bool) (l : List β) : List β × List β :=
  ((l.enum.filter (fun p => !mask p.1)).map Prod.snd,
   (l.enum.filter (fun p => mask p.1)).map Prod.snd)

/-- One LightGBM fit as `train_model` issues it: the iteration budget
(`n_estimators`), the class-weight dictionary handed to the constructor, and
the data the model is fit on. -/
structure FitSpec (ρ : Type) where
  nEstimators : Nat
  classWeight : List (Int × ℝ)
  Xfit : List ρ
  yfit : List Int

/-- What `train_model` produces, with both LightGBM fits recorded: the probe
fit with early stopping, the best-iteration count it reports, and the final
fit that is persisted. -/
structure TrainResult (ρ : Type) where
  probe : FitSpec ρ
  bestIter : Nat
  final : FitSpec ρ

/-- `train_model` from src/train.py (rows of the feature matrix are opaque
`ρ`).  `mask` abstracts the index choice of the stratified
`train_test_split`; `bestIterOf` abstracts the `best_iteration_` that
LightGBM's early stopping reports for the probe fit.  Phase 1 fits on the
training slice with `n_estimators=450`; phase 2 refits on the full `X, y`
with `n_estimators` equal to the reported best iteration. -/
noncomputable def train_model (X : List ρ) (y : List Int) (mask : Nat → Bool)
    (bestIterOf : List ρ → List Int → List ρ → List Int → Nat) : TrainResult ρ :=
  let Xsplit := splitByMask mask X
  let ysplit := splitByMask mask y
  let cw := compute_class_weights ysplit.1
  let probe : FitSpec ρ := ⟨450, cw, Xsplit.1, ysplit.1⟩
  let bi := bestIterOf Xsplit.1 ysplit.1 Xsplit.2 ysplit.2
  let cwFull := compute_class_weights y
  let final : FitSpec ρ := ⟨bi, cwFull, X, y⟩
  ⟨probe, bi, final⟩

/-! ### Feature Engineer (spec-modelled) -/

/-- NaN-propagating cell addition. -/
def vAdd [Add α] : Value α → Value α → Value α
  | .num a, .num b => .num (a + b)
  | _, _ => .na

/-- NaN-propagating cell division. -/
def vDiv [Div α] : Value α → Value α → Value α
  | .num a, .num b => .num (a / b)
  | _, _ => .na

/-- NaN-propagating cell multiplication. -/
def vMul [Mul α] : Value α → Value α → Value α
  | .num a, .num b => .num (a * b)
  | _, _ => .na

/-- Modelled from the spec: the Feature Engineer of the later pipeline
variants is described in the spec (section 4.2) but its source file is not
under src/.  It reads the behavioral input columns of the cleaned table (a
missing one is a KeyError, as any pandas subscript) and appends six derived
columns, row-wise and additive only:
`Family_Size = Adult_Dependents + Child_Dependents + Infant_Dependents`,
`Risk_Index = Previous_Claims_Filed / (Years_Without_Claims + 1)`,
`Policy_Engagement = Policy_Amendments_Count + Custom_Riders_Requested`,
`Time_To_Convert = Days_Since_Quote / (Underwriting_Processing_Days + 1)`,
`Income_Per_Dependent = Estimated_Annual_Income / (Family_Size + 1)`,
`Loyalty_Score = Existing_Policyholder * Years_Without_Claims`. -/
def engineer [Add α] [Mul α] [Div α] [One α] (df : DataFrame α) :
    Except String (DataFrame α) :=
  match df.getCol? "Adult_Dependents", df.getCol? "Child_Dependents",
      df.getCol? "Infant_Dependents", df.getCol? "Previous_Claims_Filed",
      df.getCol? "Years_Without_Claims", df.getCol? "Policy_Amendments_Count",
      df.getCol? "Custom_Riders_Requested", df.getCol? "Days_Since_Quote",
      df.getCol? "Underwriting_Processing_Days",
      df.getCol? "Estimated_Annual_Income",
      df.getCol? "Existing_Policyholder" with
  | some adult, some child, some infant, some claims, some ywc, some amend,
      some riders, some dsq, some upd, some income, some exist =>
    let fam := List.zipWith vAdd (List.zipWith vAdd adult child) infant
    .ok ((((((df.setCol "Family_Size" fam).setCol
      "Risk_Index"
        (List.zipWith vDiv claims (ywc.map (fun x => vAdd x (Value.num 1))))).setCol
      "Policy_Engagement" (List.zipWith vAdd amend riders)).setCol
      "Time_To_Convert"
        (List.zipWith vDiv dsq (upd.map (fun x => vAdd x (Value.num 1))))).setCol
      "Income_Per_Dependent"
        (List.zipWith vDiv income (fam.map (fun x => vAdd x (Value.num 1))))).setCol
      "Loyalty_Score" (List.zipWith vMul exist ywc))
  | _, _, _, _, _, _, _, _, _, _, _ =>
    .error "KeyError: engineer input column missing"

/-! ### Reference-level view of preprocess and predict

Python passes DataFrames by reference, so `df.copy()` is what keeps the
caller's frame intact.  We model a heap of frame objects: the caller's frame
sits at index `r`, `df = df.copy()` appends a fresh object and moves the
local binding to it, `df = df.drop(...)` rebinds the local name to another
fresh object, and `df[c] = ...` mutates the currently bound object in
place. -/

/-- A Python heap of DataFrame objects plus the local variable `df`
(respectively `df_work`), as the index of the object it points to. -/
structure PyState (α : Type) where
  heap : List (DataFrame α)
  cur : Nat

namespace PyState

/-- Dereference the local binding. -/
def read (s : PyState α) : DataFrame α := s.heap.getD s.cur emptyDF

/-- `df = <fresh object d>`: allocate and rebind. -/
def rebind (s : PyState α) (d : DataFrame α) : PyState α :=
  ⟨s.heap ++ [d], s.heap.length⟩

/-- `df[...] = ...`: mutate the bound object in place. -/
def mutate (s : PyState α) (f : DataFrame α → DataFrame α) : PyState α :=
  ⟨s.heap.set s.cur (f s.read), s.cur⟩

end PyState

/-- `if c in df.columns: df = df.drop(columns=[c])` on the heap. -/
def dropStepPy (s : PyState α) (c : String) : PyState α :=
  if s.read.hasCol c then s.rebind (s.read.dropCol c) else s

/-- `df[c] = df[c].fillna(v)` on the heap; `false` signals the KeyError. -/
def fillStepPy (s : PyState α) (c : String) (v : Value α) : PyState α × Bool :=
  match s.read.getCol? c with
  | none => (s, false)
  | some col => (s.mutate (fun d => d.setCol c (col.map (fillV v))), true)

/-- The cyclical month block on the heap: two in-place column writes, then a
rebinding drop. -/
def monthStepPy (sinF cosF : ℚ → α) (s : PyState α) : PyState α :=
  match s.read.getCol? "Policy_Start_Month" with
  | none => s
  | some col =>
    let mn := col.map monthNumV
    let s1 := s.mutate
      (fun d => d.setCol "month_sin" (mn.map (fun m => Value.num (sinF m))))
    let s2 := s1.mutate
      (fun d => d.setCol "month_cos" (mn.map (fun m => Value.num (cosF m))))
    s2.rebind (s2.read.dropCol "Policy_Start_Month")

/-- The category-tagging loop on the heap. -/
def astypePy (s : PyState α) (l : List String) : PyState α :=
  l.foldl (fun s c => s.mutate (fun d => d.astypeCat c)) s

/-- The body of `preprocess` after `df = df.copy()` and the guarded drops,
on the heap. -/
def preprocessPySteps [Zero α] (sinF cosF : ℚ → α) (s2 : PyState α) :
    PyState α × Except String Nat :=
  match fillStepPy s2 "Child_Dependents" (Value.num 0) with
  | (s3, false) => (s3, .error "KeyError: Child_Dependents")
  | (s3, true) =>
    match fillStepPy s3 "Deductible_Tier" (Value.str "Unknown") with
    | (s4, false) => (s4, .error "KeyError: Deductible_Tier")
    | (s4, true) =>
      match fillStepPy s4 "Acquisition_Channel" (Value.str "Unknown") with
      | (s5, false) => (s5, .error "KeyError: Acquisition_Channel")
      | (s5, true) =>
        let s6 := astypePy (monthStepPy sinF cosF s5) CATEGORICAL_COLUMNS
        (s6, .ok s6.cur)

/-- `preprocess` on the heap: the caller's frame sits at `r`; the first step
is `df = df.copy()`. -/
def preprocessPy [Zero α] (sinF cosF : ℚ → α) (h0 : List (DataFrame α)) (r : Nat) :
    List (DataFrame α) × Except String Nat :=
  let s0 : PyState α := PyState.rebind ⟨h0, r⟩ ((⟨h0, r⟩ : PyState α).read)
  let s2 := dropStepPy (dropStepPy (dropStepPy (dropStepPy s0
    "Employer_ID") "Broker_ID") "Region_Code") "Purchased_Coverage_Bundle"
  let res := preprocessPySteps sinF cosF s2
  (res.1.heap, res.2)

/-- The back-fill loop of `predict` on the heap. -/
def backfillPy [Zero α] (expected : List String) (s : PyState α) : PyState α :=
  expected.foldl
    (fun s c =>
      if s.read.hasCol c then s
      else s.mutate (fun d => d.setCol c (List.replicate d.nRows (defaultVal c))))
    s

/-- The body of `predict` after `df_work = df.copy()`, on the heap. -/
def predictPySteps [Zero α] (m : Model α) (s0 : PyState α) :
    PyState α × Except PyErr (PredOut α) :=
  if s0.read.hasCol "User_ID" = false then
    (s0, .error (wrapErr
      ⟨"ValueError", "The input DataFrame must contain a 'User_ID' column."⟩))
  else
    let userIds := (s0.read.getCol? "User_ID").getD []
    let s1 := backfillPy (m.featureNamesIn.getD FEATURE_COLUMNS) s0
    let X := s1.read.selectCols (m.featureNamesIn.getD FEATURE_COLUMNS)
    match m.pred X with
    | .ok ys => (s1, .ok ⟨userIds, ys⟩)
    | .error e => (s1, .error (wrapErr e))

/-- `predict` on the heap: the caller's frame sits at `r`. -/
def predictPy [Zero α] (m : Model α) (h0 : List (DataFrame α)) (r : Nat) :
    List (DataFrame α) × Except PyErr (PredOut α) :=
  let s0 : PyState α := PyState.rebind ⟨h0, r⟩ ((⟨h0, r⟩ : PyState α).read)
  let res := predictPySteps m s0
  (res.1.heap, res.2)

/-- The frame condition: the local binding lives strictly above every cell
the caller can reference, and those cells are untouched. -/
def Frames (h0 : List (DataFrame α)) (s : PyState α) : Prop :=
  h0.length ≤ s.cur ∧ h0.length ≤ s.heap.length ∧
    ∀ r < h0.length, s.heap.getD r emptyDF = h0.getD r emptyDF

theorem getD_set_ne {l : List β} {i r : Nat} (h : i ≠ r) (x d : β) :
    (l.set i x).getD r d = l.getD r d := by
  simp [List.getD, List.getElem?_set_ne h]

theorem frames_rebind {h0 : List (DataFrame α)} {s : PyState α}
    (h : Frames h0 s) (d : DataFrame α) : Frames h0 (s.rebind d) := by
  obtain ⟨_, h2, h3⟩ := h
  refine ⟨h2, ?_, ?_⟩
  · simp only [PyState.rebind, List.length_append, List.length_singleton]
    omega
  · intro r hr
    show (s.heap ++ [d]).getD r emptyDF = _
    rw [List.getD_append _ _ _ _ (lt_of_lt_of_le hr h2)]
    exact h3 r hr

theorem frames_mutate {h0 : List (DataFrame α)} {s : PyState α}
    (h : Frames h0 s) (f : DataFrame α → DataFrame α) :
    Frames h0 (s.mutate f) := by
  obtain ⟨h1, h2, h3⟩ := h
  refine ⟨h1, ?_, ?_⟩
  · simpa only [PyState.mutate, List.length_set] using h2
  · intro r hr
    show (s.heap.set s.cur _).getD r emptyDF = _
    rw [getD_set_ne (by omega)]
    exact h3 r hr

theorem frames_init (h0 : List (DataFrame α)) (r : Nat) (d : DataFrame α) :
    Frames h0 (PyState.rebind ⟨h0, r⟩ d) := by
  refine ⟨le_refl _, ?_, ?_⟩
  · show h0.length ≤ (h0 ++ [d]).length
    simp
  · intro i hi
    show (h0 ++ [d]).getD i emptyDF = h0.getD i emptyDF
    exact List.getD_append _ _ _ _ hi

theorem frames_dropStepPy {h0 : List (DataFrame α)} {s : PyState α}
    (h : Frames h0 s) (c : String) : Frames h0 (dropStepPy s c) := by
  unfold dropStepPy
  split
  · exact frames_rebind h _
  · exact h

theorem frames_fillStepPy {h0 : List (DataFrame α)} {s : PyState α}
    (h : Frames h0 s) (c : String) (v : Value α) :
    Frames h0 (fillStepPy s c v).1 := by
  unfold fillStepPy
  split
  · exact h
  · exact frames_mutate h _

theorem frames_monthStepPy {h0 : List (DataFrame α)} {s : PyState α}
    (h : Frames h0 s) (sinF cosF : ℚ → α) :
    Frames h0 (monthStepPy sinF cosF s) := by
  unfold monthStepPy
  split
  · exact h
  · exact frames_rebind (frames_mutate (frames_mutate h _) _) _

theorem frames_foldl {h0 : List (DataFrame α)}
    (g : PyState α → String → PyState α)
    (hg : ∀ s c, Frames h0 s → Frames h0 (g s c)) :
    ∀ (l : List String) (s : PyState α), Frames h0 s → Frames h0 (l.foldl g s)
  | [], _, h => h
  | c :: l, s, h => frames_foldl g hg l (g s c) (hg s c h)

theorem frames_astypePy {h0 : List (DataFrame α)} {s : PyState α}
    (h : Frames h0 s) (l : List String) : Frames h0 (astypePy s l) :=
  frames_foldl _ (fun _ _ hf => frames_mutate hf _) l s h

theorem frames_preprocessPySteps [Zero α] {h0 : List (DataFrame α)}
    {s2 : PyState α} (h : Frames h0 s2) (sinF cosF : ℚ → α) :
    Frames h0 (preprocessPySteps sinF cosF s2).1 := by
  unfold preprocessPySteps
  split
  · next s3 heq =>
    have h3 := frames_fillStepPy h "Child_Dependents" (Value.num 0)
    rw [heq] at h3
    exact h3
  · next s3 heq =>
    have h3 := frames_fillStepPy h "Child_Dependents" (Value.num 0)
    rw [heq] at h3
    split
    · next s4 heq4 =>
      have h4 := frames_fillStepPy h3 "Deductible_Tier" (Value.str "Unknown")
      rw [heq4] at h4
      exact h4
    · next s4 heq4 =>
      have h4 := frames_fillStepPy h3 "Deductible_Tier" (Value.str "Unknown")
      rw [heq4] at h4
      split
      · next s5 heq5 =>
        have h5 := frames_fillStepPy h4 "Acquisition_Channel" (Value.str "Unknown")
        rw [heq5] at h5
        exact h5
      · next s5 heq5 =>
        have h5 := frames_fillStepPy h4 "Acquisition_Channel" (Value.str "Unknown")
        rw [heq5] at h5
        exact frames_astypePy (frames_monthStepPy h5 sinF cosF) CATEGORICAL_COLUMNS

theorem frames_backfillPy [Zero α] {h0 : List (DataFrame α)} {s : PyState α}
    (h : Frames h0 s) (expected : List String) :
    Frames h0 (backfillPy expected s) := by
  apply frames_foldl _ _ expected s h
  intro s c hf
  dsimp only
  split
  · exact hf
  · exact frames_mutate hf _

theorem frames_predictPySteps [Zero α] {h0 : List (DataFrame α)}
    {s0 : PyState α} (h : Frames h0 s0) (m : Model α) :
    Frames h0 (predictPySteps m s0).1 := by
  unfold predictPySteps
  split
  · exact h
  · have h1 := frames_backfillPy h (m.featureNamesIn.getD FEATURE_COLUMNS)
    dsimp only
    split
    · exact h1
    · exact h1

/-! ### Stage lemmas: guarded drops -/

theorem dropGuard_hasCol_self (df : DataFrame α) (c : String) :
    (dropGuard df c).hasCol c = false := by
  unfold dropGuard
  split
  · exact DataFrame.hasCol_dropCol_self _ _
  · next h => simpa using h

theorem dropGuard_getCol?_other (df : DataFrame α) {c c' : String} (hne : c' ≠ c) :
    (dropGuard df c).getCol? c' = df.getCol? c' := by
  unfold dropGuard
  split
  · exact DataFrame.getCol?_dropCol_other df hne
  · rfl

theorem dropGuard_hasCol_other (df : DataFrame α) {c c' : String} (hne : c' ≠ c) :
    (dropGuard df c).hasCol c' = df.hasCol c' := by
  unfold dropGuard
  split
  · exact DataFrame.hasCol_dropCol_other df hne
  · rfl

theorem dropGuard_id_of_absent {df : DataFrame α} {c : String}
    (h : df.hasCol c = false) : dropGuard df c = df := by
  unfold dropGuard
  rw [h]
  rfl

/-! ### Stage lemmas: category tagging -/

theorem astypeAll_cols : ∀ (l : List String) (df : DataFrame α),
    (astypeAll df l).cols = df.cols
  | [], _ => rfl
  | c :: l, df => by
    show (astypeAll (df.astypeCat c) l).cols = df.cols
    rw [astypeAll_cols l, DataFrame.astypeCat_cols]

theorem astypeAll_getCol? (l : List String) (df : DataFrame α) (c : String) :
    (astypeAll df l).getCol? c = df.getCol? c := by
  unfold DataFrame.getCol?
  rw [astypeAll_cols]

theorem astypeAll_hasCol (l : List String) (df : DataFrame α) (c : String) :
    (astypeAll df l).hasCol c = df.hasCol c := by
  unfold DataFrame.hasCol
  rw [astypeAll_cols]

theorem astypeCat_cats_mono (df : DataFrame α) (c c' : String) (h : c' ∈ df.cats) :
    c' ∈ (df.astypeCat c).cats := by
  unfold DataFrame.astypeCat
  split
  · split
    · exact h
    · simp only
      exact List.mem_append_left _ h
  · exact h

theorem astypeAll_cats_mono : ∀ (l : List String) (df : DataFrame α) (c' : String),
    c' ∈ df.cats → c' ∈ (astypeAll df l).cats
  | [], _, _, h => h
  | c :: l, df, c', h => by
    show c' ∈ (astypeAll (df.astypeCat c) l).cats
    exact astypeAll_cats_mono l _ c' (astypeCat_cats_mono df c c' h)

theorem astypeCat_mem_cats (df : DataFrame α) (c : String) (h : df.hasCol c = true) :
    c ∈ (df.astypeCat c).cats := by
  unfold DataFrame.astypeCat
  rw [h]
  simp only [if_true]
  split
  · next hm => exact hm
  · simp

theorem astypeAll_mem_cats : ∀ (l : List String) (df : DataFrame α) (c : String),
    c ∈ l → df.hasCol c = true → c ∈ (astypeAll df l).cats
  | [], _, _, h, _ => by cases h
  | c' :: l, df, c, h, hc => by
    show c ∈ (astypeAll (df.astypeCat c') l).cats
    rcases List.mem_cons.mp h with rfl | hmem
    · exact astypeAll_cats_mono l _ _ (astypeCat_mem_cats df c hc)
    · exact astypeAll_mem_cats l _ c hmem (by rw [DataFrame.hasCol_astypeCat]; exact hc)

theorem astypeAll_id : ∀ (l : List String) (df : DataFrame α),
    (∀ c ∈ l, df.hasCol c = true → c ∈ df.cats) → astypeAll df l = df
  | [], _, _ => rfl
  | c :: l, df, h => by
    have hc : df.astypeCat c = df := by
      unfold DataFrame.astypeCat
      split
      · next hp => rw [if_pos (h c (List.mem_cons_self c l) hp)]
      · rfl
    show astypeAll (df.astypeCat c) l = df
    rw [hc]
    exact astypeAll_id l df (fun c' hm => h c' (List.mem_cons_of_mem c hm))

/-! ### Stage lemmas: the cyclical month block -/

theorem monthStep_hasCol_PSM (sinF cosF : ℚ → α) (df : DataFrame α) :
    (monthStep sinF cosF df).hasCol "Policy_Start_Month" = false := by
  unfold monthStep
  split
  · next h => exact DataFrame.getCol?_none_hasCol h
  · exact DataFrame.hasCol_dropCol_self _ _

theorem monthStep_getCol?_other (sinF cosF : ℚ → α) (df : DataFrame α) {c : String}
    (h1 : c ≠ "Policy_Start_Month") (h2 : c ≠ "month_sin") (h3 : c ≠ "month_cos") :
    (monthStep sinF cosF df).getCol? c = df.getCol? c := by
  unfold monthStep
  split
  · rfl
  · dsimp only
    rw [DataFrame.getCol?_dropCol_other _ h1, DataFrame.getCol?_setCol_other _ h3,
      DataFrame.getCol?_setCol_other _ h2]

theorem monthStep_hasCol_other (sinF cosF : ℚ → α) (df : DataFrame α) {c : String}
    (h1 : c ≠ "Policy_Start_Month") (h2 : c ≠ "month_sin") (h3 : c ≠ "month_cos") :
    (monthStep sinF cosF df).hasCol c = df.hasCol c := by
  unfold monthStep
  split
  · rfl
  · dsimp only
    rw [DataFrame.hasCol_dropCol_other _ h1, DataFrame.hasCol_setCol_other _ h3,
      DataFrame.hasCol_setCol_other _ h2]

theorem monthStep_month_sin (sinF cosF : ℚ → α) (df : DataFrame α)
    {col : List (Value α)} (h : df.getCol? "Policy_Start_Month" = some col) :
    (monthStep sinF cosF df).getCol? "month_sin"
      = some ((col.map monthNumV).map (fun m => Value.num (sinF m))) := by
  unfold monthStep
  rw [h]
  dsimp only
  rw [DataFrame.getCol?_dropCol_other _ (by decide),
    DataFrame.getCol?_setCol_other _ (by decide), DataFrame.getCol?_setCol_self]

theorem monthStep_month_cos (sinF cosF : ℚ → α) (df : DataFrame α)
    {col : List (Value α)} (h : df.getCol? "Policy_Start_Month" = some col) :
    (monthStep sinF cosF df).getCol? "month_cos"
      = some ((col.map monthNumV).map (fun m => Value.num (cosF m))) := by
  unfold monthStep
  rw [h]
  dsimp only
  rw [DataFrame.getCol?_dropCol_other _ (by decide), DataFrame.getCol?_setCol_self]

theorem monthStep_id_of_absent {sinF cosF : ℚ → α} {df : DataFrame α}
    (h : df.getCol? "Policy_Start_Month" = none) : monthStep sinF cosF df = df := by
  unfold monthStep
  rw [h]

/-! ### Stage lemmas: the guarded drop block of preprocess -/

theorem preDrops_getCol?_other (df : DataFrame α) {c : String}
    (h1 : c ≠ "Employer_ID") (h2 : c ≠ "Broker_ID") (h3 : c ≠ "Region_Code")
    (h4 : c ≠ "Purchased_Coverage_Bundle") :
    (preDrops df).getCol? c = df.getCol? c := by
  unfold preDrops
  rw [dropGuard_getCol?_other _ h4, dropGuard_getCol?_other _ h3,
    dropGuard_getCol?_other _ h2, dropGuard_getCol?_other _ h1]

theorem preDrops_hasCol_other (df : DataFrame α) {c : String}
    (h1 : c ≠ "Employer_ID") (h2 : c ≠ "Broker_ID") (h3 : c ≠ "Region_Code")
    (h4 : c ≠ "Purchased_Coverage_Bundle") :
    (preDrops df).hasCol c = df.hasCol c := by
  unfold preDrops
  rw [dropGuard_hasCol_other _ h4, dropGuard_hasCol_other _ h3,
    dropGuard_hasCol_other _ h2, dropGuard_hasCol_other _ h1]

theorem preDrops_hasCol_employer (df : DataFrame α) :
    (preDrops df).hasCol "Employer_ID" = false := by
  unfold preDrops
  rw [dropGuard_hasCol_other _ (by decide), dropGuard_hasCol_other _ (by decide),
    dropGuard_hasCol_other _ (by decide), dropGuard_hasCol_self]

theorem preDrops_hasCol_broker (df : DataFrame α) :
    (preDrops df).hasCol "Broker_ID" = false := by
  unfold preDrops
  rw [dropGuard_hasCol_other _ (by decide), dropGuard_hasCol_other _ (by decide),
    dropGuard_hasCol_self]

theorem preDrops_hasCol_region (df : DataFrame α) :
    (preDrops df).hasCol "Region_Code" = false := by
  unfold preDrops
  rw [dropGuard_hasCol_other _ (by decide), dropGuard_hasCol_self]

theorem preDrops_hasCol_target (df : DataFrame α) :
    (preDrops df).hasCol "Purchased_Coverage_Bundle" = false := by
  unfold preDrops
  rw [dropGuard_hasCol_self]

/-! ### Stage lemmas: guarded fills and the total form of clean_data -/

/-- The total effect of one guarded fill. -/
def fillGuard (df : DataFrame α) (c : String) (v : Value α) : DataFrame α :=
  match df.getCol? c with
  | none => df
  | some col => df.setCol c (col.map (fillV v))

theorem fillGuardE_eq (df : DataFrame α) (c : String) (v : Value α) :
    fillGuardE df c v = .ok (fillGuard df c v) := by
  unfold fillGuardE fillGuard fillReq
  by_cases h : df.hasCol c = true
  · rw [if_pos h]
    cases hg : df.getCol? c with
    | none =>
      have h2 := DataFrame.getCol?_none_hasCol hg
      rw [h2] at h
      cases h
    | some col => rfl
  · have hf : df.hasCol c = false := by simpa using h
    rw [if_neg (by simp [hf]), DataFrame.hasCol_false_getCol? hf]

theorem fillGuard_getCol?_other (df : DataFrame α) {c c' : String}
    (hne : c' ≠ c) (v : Value α) :
    (fillGuard df c v).getCol? c' = df.getCol? c' := by
  unfold fillGuard
  split
  · rfl
  · exact DataFrame.getCol?_setCol_other df hne _

theorem fillGuard_hasCol (df : DataFrame α) (c c' : String) (v : Value α) :
    (fillGuard df c v).hasCol c' = df.hasCol c' := by
  unfold fillGuard
  split
  · rfl
  · next col hcol =>
    by_cases hne : c' = c
    · subst hne
      rw [DataFrame.hasCol_setCol_self, DataFrame.getCol?_some_hasCol hcol]
    · exact DataFrame.hasCol_setCol_other df hne _

theorem fillGuard_getCol?_self (df : DataFrame α) {c : String}
    {col : List (Value α)} (h : df.getCol? c = some col) (v : Value α) :
    (fillGuard df c v).getCol? c = some (col.map (fillV v)) := by
  unfold fillGuard
  rw [h]
  exact DataFrame.getCol?_setCol_self _ _ _

theorem fillGuard_id_of_absent {df : DataFrame α} {c : String}
    (h : df.getCol? c = none) (v : Value α) : fillGuard df c v = df := by
  unfold fillGuard
  rw [h]

theorem fillGuard_cats (df : DataFrame α) (c : String) (v : Value α) :
    (fillGuard df c v).cats = df.cats := by
  unfold fillGuard
  split
  · rfl
  · exact DataFrame.setCol_cats _ _ _

/-- The composed total effect of `clean_data`. -/
def cleanTotal [Zero α] [One α] [Neg α] (df : DataFrame α) : DataFrame α :=
  astypeAll
    (fillGuard (fillGuard (fillGuard (fillGuard (fillGuard (dropGuard df "Employer_ID")
      "Child_Dependents" (Value.num 0))
      "Region_Code" (Value.str "Unknown"))
      "Deductible_Tier" (Value.str "Unknown"))
      "Acquisition_Channel" (Value.str "Unknown"))
      "Broker_ID" (Value.num (-1)))
    FEAT_CATEGORICAL

theorem clean_data_eq [Zero α] [One α] [Neg α] (df : DataFrame α) :
    clean_data df = .ok (cleanTotal df) := by
  unfold clean_data cleanTotal
  simp only [fillGuardE_eq, bind, Except.bind]
  rfl

/-! ### Inversion of a successful preprocess run -/

theorem preprocess_ok_elim [Zero α] {sinF cosF : ℚ → α} {df out : DataFrame α}
    (h : preprocess sinF cosF df = .ok out) :
    ∃ cChild cDed cAcq,
      (preDrops df).getCol? "Child_Dependents" = some cChild ∧
      ((preDrops df).setCol "Child_Dependents"
          (cChild.map (fillV (Value.num 0)))).getCol? "Deductible_Tier" = some cDed ∧
      (((preDrops df).setCol "Child_Dependents"
          (cChild.map (fillV (Value.num 0)))).setCol "Deductible_Tier"
          (cDed.map (fillV (Value.str "Unknown")))).getCol? "Acquisition_Channel"
        = some cAcq ∧
      out = astypeAll (monthStep sinF cosF
        ((((preDrops df).setCol "Child_Dependents"
          (cChild.map (fillV (Value.num 0)))).setCol "Deductible_Tier"
          (cDed.map (fillV (Value.str "Unknown")))).setCol "Acquisition_Channel"
          (cAcq.map (fillV (Value.str "Unknown")))))
        CATEGORICAL_COLUMNS := by
  unfold preprocess at h
  dsimp only at h
  cases hChild : (preDrops df).getCol? "Child_Dependents" with
  | none => rw [hChild] at h; cases h
  | some cChild =>
    rw [hChild] at h
    dsimp only at h
    cases hDed : ((preDrops df).setCol "Child_Dependents"
        (cChild.map (fillV (Value.num 0)))).getCol? "Deductible_Tier" with
    | none => rw [hDed] at h; cases h
    | some cDed =>
      rw [hDed] at h
      dsimp only at h
      cases hAcq : (((preDrops df).setCol "Child_Dependents"
          (cChild.map (fillV (Value.num 0)))).setCol "Deductible_Tier"
          (cDed.map (fillV (Value.str "Unknown")))).getCol? "Acquisition_Channel" with
      | none => rw [hAcq] at h; cases h
      | some cAcq =>
        rw [hAcq] at h
        dsimp only at h
        injection h with h2
        exact ⟨cChild, cDed, cAcq, rfl, hDed, hAcq, h2.symm⟩

/-! ### Cell-level fill lemmas -/

theorem fillV_ne_na {v : Value α} (hv : v ≠ Value.na) (x : Value α) :
    fillV v x ≠ Value.na := by
  cases x with
  | str s => simp [fillV]
  | num a => simp [fillV]
  | na => simpa [fillV] using hv

theorem fillV_id {x : Value α} (hx : x ≠ Value.na) (v : Value α) : fillV v x = x := by
  cases x with
  | str s => rfl
  | num a => rfl
  | na => exact absurd rfl hx

theorem fillV_fillV {v : Value α} (hv : v ≠ Value.na) (x : Value α) :
    fillV v (fillV v x) = fillV v x := fillV_id (fillV_ne_na hv x) v

theorem map_fillV_idem {v : Value α} (hv : v ≠ Value.na) (l : List (Value α)) :
    (l.map (fillV v)).map (fillV v) = l.map (fillV v) := by
  induction l with
  | nil => rfl
  | cons x l ih => simp only [List.map_cons, ih, fillV_fillV hv]

/-! ### Nodup column names and setCol as an identity -/

theorem map_fst_subst (c : String) (v : List (Value α)) :
    ∀ (l : List (String × List (Value α))),
      (l.map (fun p => if p.1 = c then (c, v) else p)).map Prod.fst = l.map Prod.fst
  | [] => rfl
  | p :: l => by
    by_cases hp : p.1 = c
    · simp only [List.map_cons, if_pos hp, map_fst_subst c v l]
      simp [hp]
    · simp only [List.map_cons, if_neg hp, map_fst_subst c v l]

theorem names_setCol_present {df : DataFrame α} {c : String}
    (h : df.hasCol c = true) (v : List (Value α)) :
    (df.setCol c v).names = df.names := by
  unfold DataFrame.setCol DataFrame.names
  rw [if_pos h]
  exact map_fst_subst c v df.cols

theorem names_setCol_absent {df : DataFrame α} {c : String}
    (h : df.hasCol c = false) (v : List (Value α)) :
    (df.setCol c v).names = df.names ++ [c] := by
  unfold DataFrame.setCol DataFrame.names
  rw [if_neg (by simp [h])]
  simp

theorem hasCol_iff_mem_names (df : DataFrame α) (c : String) :
    df.hasCol c = true ↔ c ∈ df.names := by
  unfold DataFrame.hasCol DataFrame.names
  constructor
  · intro h
    obtain ⟨p, hp, he⟩ := List.any_eq_true.mp h
    exact List.mem_map.mpr ⟨p, hp, by simpa using he⟩
  · intro h
    obtain ⟨p, hp, he⟩ := List.mem_map.mp h
    exact List.any_eq_true.mpr ⟨p, hp, by simpa using he⟩

theorem nodup_names_setCol {df : DataFrame α} (h : df.names.Nodup)
    (c : String) (v : List (Value α)) : (df.setCol c v).names.Nodup := by
  by_cases hc : df.hasCol c = true
  · rw [names_setCol_present hc]
    exact h
  · have hcf : df.hasCol c = false := by simpa using hc
    rw [names_setCol_absent hcf]
    have hnm : c ∉ df.names := fun hm => hc ((hasCol_iff_mem_names df c).mpr hm)
    exact List.Nodup.append h (List.nodup_singleton c)
      (fun a ha hb => by
        rw [List.mem_singleton] at hb
        exact hnm (hb ▸ ha))

theorem nodup_names_dropCol {df : DataFrame α} (h : df.names.Nodup) (c : String) :
    (df.dropCol c).names.Nodup := by
  unfold DataFrame.dropCol DataFrame.names at *
  exact ((List.filter_sublist _).map Prod.fst).nodup h

theorem nodup_names_dropGuard {df : DataFrame α} (h : df.names.Nodup) (c : String) :
    (dropGuard df c).names.Nodup := by
  unfold dropGuard
  split
  · exact nodup_names_dropCol h c
  · exact h

theorem names_astypeAll (df : DataFrame α) (l : List String) :
    (astypeAll df l).names = df.names := by
  unfold DataFrame.names
  rw [astypeAll_cols]

theorem nodup_names_monthStep {sinF cosF : ℚ → α} {df : DataFrame α}
    (h : df.names.Nodup) : (monthStep sinF cosF df).names.Nodup := by
  unfold monthStep
  split
  · exact h
  · exact nodup_names_dropCol (nodup_names_setCol (nodup_names_setCol h _ _) _ _) _

theorem map_subst_id_of_not_mem {c : String} {v : List (Value α)} :
    ∀ (l : List (String × List (Value α))), c ∉ l.map Prod.fst →
      l.map (fun p => if p.1 = c then (c, v) else p) = l
  | [], _ => rfl
  | p :: l, h => by
    have h1 : ¬ p.1 = c := fun he => h (by rw [List.map_cons, he]; exact List.mem_cons_self _ _)
    simp only [List.map_cons, if_neg h1]
    rw [map_subst_id_of_not_mem l (fun hm => h (by rw [List.map_cons]; exact List.mem_cons_of_mem _ hm))]

theorem map_subst_id {c : String} {v : List (Value α)} :
    ∀ (l : List (String × List (Value α))), (l.map Prod.fst).Nodup →
      l.find? (fun p => p.1 = c) = some (c, v) →
      l.map (fun p => if p.1 = c then (c, v) else p) = l
  | [], _, hf => by cases hf
  | p :: l, hnd, hf => by
    by_cases hp : p.1 = c
    · rw [List.find?_cons_of_pos _ (by simpa using hp)] at hf
      injection hf with hf
      simp only [List.map_cons, if_pos hp]
      have hnd2 : (p.1 :: l.map Prod.fst).Nodup := by rwa [List.map_cons] at hnd
      have h1 : c ∉ l.map Prod.fst := by
        have h2 := (List.nodup_cons.mp hnd2).1
        rwa [hp] at h2
      rw [hf, map_subst_id_of_not_mem l h1]
    · rw [List.find?_cons_of_neg _ (by simpa using hp)] at hf
      simp only [List.map_cons, if_neg hp]
      have hnd2 : (p.1 :: l.map Prod.fst).Nodup := by rwa [List.map_cons] at hnd
      rw [map_subst_id l (List.nodup_cons.mp hnd2).2 hf]

theorem setCol_id {df : DataFrame α} {c : String} {v : List (Value α)}
    (hnd : df.names.Nodup) (h : df.getCol? c = some v) : df.setCol c v = df := by
  have hfind : df.cols.find? (fun p => p.1 = c) = some (c, v) := by
    unfold DataFrame.getCol? at h
    cases hf : df.cols.find? (fun p => p.1 = c) with
    | none => rw [hf] at h; cases h
    | some q =>
      rw [hf] at h
      injection h with h2
      have hq1 : q.1 = c := by simpa using List.find?_some hf
      have : q = (c, v) := by
        cases q
        simp only [Prod.mk.injEq]
        exact ⟨hq1, h2⟩
      rw [← this]
  have hc := DataFrame.getCol?_some_hasCol h
  unfold DataFrame.setCol
  rw [if_pos hc]
  obtain ⟨cols, cats⟩ := df
  simp only [DataFrame.mk.injEq, and_true]
  exact map_subst_id cols (by simpa [DataFrame.names] using hnd) hfind

/-! ### Row counts, rectangularity, and the predict back-fill loop -/

theorem getCol?_length_of_wf {df : DataFrame α} (hwf : df.wf) {c : String}
    {w : List (Value α)} (h : df.getCol? c = some w) : w.length = df.nRows := by
  unfold DataFrame.getCol? at h
  cases hf : df.cols.find? (fun p => p.1 = c) with
  | none => rw [hf] at h; cases h
  | some q =>
    rw [hf] at h
    injection h with h2
    rw [← h2]
    exact hwf q (List.mem_of_find?_eq_some hf)

theorem nRows_setCol_replicate {df : DataFrame α} {c : String}
    (h : df.hasCol c = false) (x : Value α) :
    (df.setCol c (List.replicate df.nRows x)).nRows = df.nRows := by
  obtain ⟨cols, cats⟩ := df
  unfold DataFrame.setCol
  rw [if_neg (by simpa using h)]
  cases cols with
  | nil => rfl
  | cons p l => rfl

theorem wf_setCol_replicate {df : DataFrame α} (hwf : df.wf) {c : String}
    (h : df.hasCol c = false) (x : Value α) :
    (df.setCol c (List.replicate df.nRows x)).wf := by
  intro p hp
  rw [nRows_setCol_replicate h x]
  have hcols : (df.setCol c (List.replicate df.nRows x)).cols
      = df.cols ++ [(c, List.replicate df.nRows x)] := by
    unfold DataFrame.setCol
    rw [if_neg (by simp [h])]
  rw [hcols] at hp
  rcases List.mem_append.mp hp with h1 | h2
  · exact hwf p h1
  · rw [List.mem_singleton] at h2
    rw [h2]
    exact List.length_replicate _ _

theorem backfill_invariant [Zero α] :
    ∀ (e : List String) (df : DataFrame α), df.wf →
      (backfill df e).nRows = df.nRows ∧ (backfill df e).wf ∧
      (∀ c, df.hasCol c = true →
        (backfill df e).getCol? c = df.getCol? c ∧ (backfill df e).hasCol c = true) ∧
      (∀ c ∈ e, (backfill df e).hasCol c = true) ∧
      (∀ c ∈ e, df.hasCol c = false →
        (backfill df e).getCol? c = some (List.replicate df.nRows (defaultVal c)))
  | [], df, hwf => ⟨rfl, hwf, fun _ h => ⟨rfl, h⟩, fun _ h => absurd h (List.not_mem_nil _),
      fun _ h => absurd h (List.not_mem_nil _)⟩
  | c' :: e, df, hwf => by
    by_cases hc' : df.hasCol c' = true
    · have hstep : backfill df (c' :: e) = backfill df e := by
        unfold backfill
        rw [List.foldl_cons, if_pos hc']
      obtain ⟨ih1, ih2, ih3, ih4, ih5⟩ := backfill_invariant e df hwf
      rw [hstep]
      refine ⟨ih1, ih2, ih3, ?_, ?_⟩
      · intro c hc
        rcases List.mem_cons.mp hc with rfl | hm
        · exact (ih3 c hc').2
        · exact ih4 c hm
      · intro c hc hcf
        rcases List.mem_cons.mp hc with rfl | hm
        · rw [hcf] at hc'; cases hc'
        · exact ih5 c hm hcf
    · have hcf' : df.hasCol c' = false := by simpa using hc'
      set d1 := df.setCol c' (List.replicate df.nRows (defaultVal c')) with hd1
      have hstep : backfill df (c' :: e) = backfill d1 e := by
        unfold backfill
        rw [List.foldl_cons, if_neg (by simp [hcf']), hd1]
      have hd1rows : d1.nRows = df.nRows := nRows_setCol_replicate hcf' _
      have hd1wf : d1.wf := wf_setCol_replicate hwf hcf' _
      have hd1has : d1.hasCol c' = true := DataFrame.hasCol_setCol_self df c' _
      have hd1get : d1.getCol? c' = some (List.replicate df.nRows (defaultVal c')) :=
        DataFrame.getCol?_setCol_self df c' _
      obtain ⟨ih1, ih2, ih3, ih4, ih5⟩ := backfill_invariant e d1 hd1wf
      rw [hstep]
      refine ⟨by rw [ih1, hd1rows], ih2, ?_, ?_, ?_⟩
      · intro c hc
        have hne : c ≠ c' := fun he => by rw [he, hcf'] at hc; cases hc
        have hget : d1.getCol? c = df.getCol? c := DataFrame.getCol?_setCol_other df hne _
        have hhas : d1.hasCol c = true := by
          rw [DataFrame.hasCol_setCol_other df hne]
          exact hc
        obtain ⟨g1, g2⟩ := ih3 c hhas
        exact ⟨g1.trans hget, g2⟩
      · intro c hc
        rcases List.mem_cons.mp hc with rfl | hm
        · exact (ih3 c hd1has).2
        · exact ih4 c hm
      · intro c hc hcfc
        rcases List.mem_cons.mp hc with rfl | hm
        · rw [(ih3 c hd1has).1]
          exact hd1get
        · by_cases hcc' : c = c'
          · subst hcc'
            rw [(ih3 c hd1has).1]
            exact hd1get
          · have hhas : d1.hasCol c = false := by
              rw [DataFrame.hasCol_setCol_other df hcc']
              exact hcfc
            have := ih5 c hm hhas
            rwa [hd1rows] at this
  termination_by e => e.length

/-! ### Column selection lemmas -/

theorem find?_select (df : DataFrame α) :
    ∀ (e : List String) (c : String), c ∈ e →
      (e.map (fun c0 => (c0, (df.getCol? c0).getD []))).find? (fun p => p.1 = c)
        = some (c, (df.getCol? c).getD [])
  | [], c, h => absurd h (List.not_mem_nil c)
  | c' :: e, c, h => by
    by_cases hc : c' = c
    · subst hc
      rw [List.map_cons, List.find?_cons_of_pos _ (by simp)]
    · rw [List.map_cons, List.find?_cons_of_neg _ (by simpa using hc)]
      refine find?_select df e c ?_
      rcases List.mem_cons.mp h with rfl | hm
      · exact absurd rfl hc
      · exact hm

theorem selectCols_getCol? (df : DataFrame α) {e : List String} {c : String}
    (h : c ∈ e) :
    (df.selectCols e).getCol? c = some ((df.getCol? c).getD []) := by
  unfold DataFrame.selectCols DataFrame.getCol?
  dsimp only
  rw [show (e.map (fun c0 => (c0, ((df.cols.find? (fun p => p.1 = c0)).map Prod.snd).getD [])))
      = (e.map (fun c0 => (c0, (df.getCol? c0).getD []))) from rfl]
  rw [find?_select df e c h]
  rfl

theorem selectCols_nRows_cons (df : DataFrame α) (c0 : String) (e : List String) :
    (df.selectCols (c0 :: e)).nRows = ((df.getCol? c0).getD []).length := rfl

/-! ### Indexing a zipWith -/

theorem getD_zipWith {γ δ ε : Type} (f : γ → δ → ε) :
    ∀ (l1 : List γ) (l2 : List δ) (i : Nat), i < l1.length → i < l2.length →
      ∀ (d : ε) (d1 : γ) (d2 : δ),
      (List.zipWith f l1 l2).getD i d = f (l1.getD i d1) (l2.getD i d2)
  | [], _, i, h1, _, _, _, _ => absurd h1 (by simp)
  | _ :: _, [], i, _, h2, _, _, _ => absurd h2 (by simp)
  | x :: l1, y :: l2, 0, _, _, d, d1, d2 => rfl
  | x :: l1, y :: l2, i + 1, h1, h2, d, d1, d2 => by
    simp only [List.zipWith_cons_cons, List.getD_cons_succ]
    exact getD_zipWith f l1 l2 i (by simpa using h1) (by simpa using h2) d d1 d2

/-! ### Assorted helpers for the claim theorems -/

theorem colGetE_ok_iff (df : DataFrame α) (c : String) (col : List (Value α)) :
    df.colGetE c = .ok col ↔ df.getCol? c = some col := by
  unfold DataFrame.colGetE
  cases h : df.getCol? c <;> simp

theorem hasCol_setCol_mono {df : DataFrame α} {c' : String} (h : df.hasCol c' = true)
    (c : String) (v : List (Value α)) : (df.setCol c v).hasCol c' = true := by
  by_cases hc : c' = c
  · subst hc
    exact DataFrame.hasCol_setCol_self df c' v
  · rw [DataFrame.hasCol_setCol_other df hc]
    exact h

theorem nodup_names_fillGuard {df : DataFrame α} (h : df.names.Nodup)
    (c : String) (v : Value α) : (fillGuard df c v).names.Nodup := by
  unfold fillGuard
  split
  · exact h
  · exact nodup_names_setCol h _ _

theorem fillGuard_id_of_filled {df : DataFrame α} {c : String} {w : List (Value α)}
    (hnd : df.names.Nodup) (h : df.getCol? c = some w) {v : Value α}
    (hw : w.map (fillV v) = w) : fillGuard df c v = df := by
  unfold fillGuard
  rw [h]
  dsimp only
  rw [hw]
  exact setCol_id hnd h

theorem splitByMask_perm (mask : Nat → Bool) (l : List β) :
    ((splitByMask mask l).1 ++ (splitByMask mask l).2).Perm l := by
  unfold splitByMask
  dsimp only
  rw [← List.map_append]
  have h1 : (l.enum.filter (fun p => !mask p.1)
      ++ l.enum.filter (fun p => mask p.1)).Perm l.enum := by
    have h2 := List.filter_append_perm (fun p => !mask p.1) l.enum
    simpa using h2
  have h3 := h1.map Prod.snd
  rwa [List.enum_map_snd] at h3

theorem compute_class_weights_eq (y : List Int) :
    compute_class_weights y = y.dedup.map
      (fun c => (c, 1 / Real.log ((1.2 : ℝ)
        + (((y.count c : ℚ) / (y.length : ℚ) : ℚ) : ℝ)))) := by
  unfold compute_class_weights valueCountsNorm
  rw [List.map_map]
  rfl

theorem find?_weight_map {w : Int → ℝ} :
    ∀ (l : List Int) (c : Int), c ∈ l →
      (l.map (fun x => (x, w x))).find? (fun p => p.1 = c) = some (c, w c)
  | [], c, h => absurd h (List.not_mem_nil c)
  | x :: l, c, h => by
    by_cases hx : x = c
    · subst hx
      rw [List.map_cons, List.find?_cons_of_pos _ (by simp)]
    · rw [List.map_cons, List.find?_cons_of_neg _ (by simpa using hx)]
      refine find?_weight_map l c ?_
      rcases List.mem_cons.mp h with rfl | hm
      · exact absurd rfl hx
      · exact hm

/-! ### Exact values of the cyclical month encoding -/

theorem monthSinF_one : monthSinF 1 = 1 / 2 := by
  unfold monthSinF
  rw [show (2 * Real.pi * ((1 : ℚ) : ℝ) / 12) = Real.pi / 6 by push_cast; ring]
  exact Real.sin_pi_div_six

theorem monthCosF_one : monthCosF 1 = Real.sqrt 3 / 2 := by
  unfold monthCosF
  rw [show (2 * Real.pi * ((1 : ℚ) : ℝ) / 12) = Real.pi / 6 by push_cast; ring]
  exact Real.cos_pi_div_six

theorem monthSinF_twelve : monthSinF 12 = 0 := by
  unfold monthSinF
  rw [show (2 * Real.pi * ((12 : ℚ) : ℝ) / 12) = 2 * Real.pi by push_cast; ring]
  exact Real.sin_two_pi

theorem monthCosF_twelve : monthCosF 12 = 1 := by
  unfold monthCosF
  rw [show (2 * Real.pi * ((12 : ℚ) : ℝ) / 12) = 2 * Real.pi by push_cast; ring]
  exact Real.cos_two_pi

theorem month_dist_sq :
    (monthSinF 12 - monthSinF 1) ^ 2 + (monthCosF 12 - monthCosF 1) ^ 2
      = 2 - Real.sqrt 3 := by
  rw [monthSinF_twelve, monthSinF_one, monthCosF_twelve, monthCosF_one]
  have h3 : Real.sqrt 3 ^ 2 = 3 := Real.sq_sqrt (by norm_num)
  nlinarith [h3]

theorem one_lt_sqrt_three : (1 : ℝ) < Real.sqrt 3 := by
  have h := Real.sqrt_lt_sqrt (by norm_num : (0 : ℝ) ≤ 1) (by norm_num : (1 : ℝ) < 3)
  rwa [Real.sqrt_one] at h

theorem month_dist_sq_small : 2 - Real.sqrt 3 < 1 := by
  have := one_lt_sqrt_three
  linarith

/-! ### Claim theorems -/

/-- Claim C9: neither `preprocess` nor `predict` mutates the caller's input
frame.  With the caller's DataFrame at heap index `r`, both reference-level
runs (which start with `df.copy()` and only ever mutate the copy or freshly
allocated frames) leave that heap cell exactly as it was. -/
theorem preprocess_predict_no_mutation [Zero α] (sinF cosF : ℚ → α)
    (m : Model α) (h0 : List (DataFrame α)) (r : Nat) (hr : r < h0.length) :
    (preprocessPy sinF cosF h0 r).1.getD r emptyDF = h0.getD r emptyDF ∧
    (predictPy m h0 r).1.getD r emptyDF = h0.getD r emptyDF := by
  constructor
  · unfold preprocessPy
    dsimp only
    exact (frames_preprocessPySteps (frames_dropStepPy (frames_dropStepPy
      (frames_dropStepPy (frames_dropStepPy (frames_init h0 r _) _) _) _) _)
      sinF cosF).2.2 r hr
  · unfold predictPy
    dsimp only
    exact (frames_predictPySteps (frames_init h0 r _) m).2.2 r hr

/-- Witness for C9 at a concrete one-frame heap. -/
theorem preprocess_predict_no_mutation_witness :
    (preprocessPy (fun _ => (0 : ℚ)) (fun _ => 0)
        [(emptyDF : DataFrame ℚ)] 0).1.getD 0 emptyDF
      = [(emptyDF : DataFrame ℚ)].getD 0 emptyDF ∧
    (predictPy (⟨some ["Adult_Dependents"], fun _ => Except.ok []⟩ : Model ℚ)
        [(emptyDF : DataFrame ℚ)] 0).1.getD 0 emptyDF
      = [(emptyDF : DataFrame ℚ)].getD 0 emptyDF :=
  preprocess_predict_no_mutation (fun _ => (0 : ℚ)) (fun _ => 0)
    ⟨some ["Adult_Dependents"], fun _ => Except.ok []⟩ [emptyDF] 0 (by decide)

/-- Claim C2: on a frame without `User_ID`, `predict` yields the descriptive
schema ValueError and no prediction; a ValueError escaping the try block is
re-raised with its own message; any other exception is caught once and
rewrapped into a ValueError whose message carries the original exception's
type name and message. -/
theorem predict_error_handling [Zero α] (m : Model α) (df : DataFrame α) :
    (df.hasCol "User_ID" = false →
      predict m df = .error
        ⟨"ValueError", "The input DataFrame must contain a 'User_ID' column."⟩) ∧
    (∀ e : PyErr, predictRun m df = .error e → e.ty = "ValueError" →
      predict m df = .error ⟨"ValueError", e.msg⟩) ∧
    (∀ e : PyErr, predictRun m df = .error e → e.ty ≠ "ValueError" →
      predict m df = .error ⟨"ValueError",
        "An error occurred during prediction: " ++ e.ty ++ ": " ++ e.msg⟩) := by
  refine ⟨?_, ?_, ?_⟩
  · intro h
    have hrun : predictRun m df = .error
        ⟨"ValueError", "The input DataFrame must contain a 'User_ID' column."⟩ := by
      unfold predictRun
      rw [if_pos h]
    unfold predict
    rw [hrun]
    dsimp only [wrapErr]
    rw [if_pos rfl]
  · intro e he hty
    unfold predict
    rw [he]
    dsimp only [wrapErr]
    rw [if_pos hty]
  · intro e he hty
    unfold predict
    rw [he]
    dsimp only [wrapErr]
    rw [if_neg hty]

/-- Witness for C2: the missing-id error on an empty frame, and the
rewrapping of a TypeError raised by the classifier. -/
theorem predict_error_handling_witness :
    predict (⟨some ["month_sin"], fun _ => Except.ok []⟩ : Model ℚ) emptyDF
      = .error ⟨"ValueError", "The input DataFrame must contain a 'User_ID' column."⟩ ∧
    predict (⟨some ["month_sin"], fun _ => Except.error ⟨"TypeError", "boom"⟩⟩ : Model ℚ)
        ⟨[("User_ID", [Value.str "u1"])], []⟩
      = .error ⟨"ValueError", "An error occurred during prediction: TypeError: boom"⟩ :=
  ⟨(predict_error_handling _ emptyDF).1 (by decide),
   (predict_error_handling _ _).2.2 ⟨"TypeError", "boom"⟩ rfl (by decide)⟩

/-- Claim C7: after the early-stopping probe fit on the masked holdout
reports a best-iteration count, the final persisted fit runs on the entire
dataset — the training rows plus the validation rows, which together are a
permutation of the input — with its iteration budget set to exactly that
count. -/
theorem train_model_refits_full_data (X : List ρ) (y : List Int)
    (mask : Nat → Bool)
    (bestIterOf : List ρ → List Int → List ρ → List Int → Nat) :
    (train_model X y mask bestIterOf).final.nEstimators
        = (train_model X y mask bestIterOf).bestIter ∧
    (train_model X y mask bestIterOf).bestIter
        = bestIterOf (splitByMask mask X).1 (splitByMask mask y).1
            (splitByMask mask X).2 (splitByMask mask y).2 ∧
    (train_model X y mask bestIterOf).final.Xfit = X ∧
    (train_model X y mask bestIterOf).final.yfit = y ∧
    ((splitByMask mask X).1 ++ (splitByMask mask X).2).Perm X ∧
    ((splitByMask mask y).1 ++ (splitByMask mask y).2).Perm y ∧
    (train_model X y mask bestIterOf).probe.Xfit = (splitByMask mask X).1 ∧
    (train_model X y mask bestIterOf).probe.yfit = (splitByMask mask y).1 :=
  ⟨rfl, rfl, rfl, rfl, splitByMask_perm mask X, splitByMask_perm mask y, rfl, rfl⟩

/-- Claim C6: for a non-empty label series, the inverse-log strategy gives
every occurring class `c` the class-level weight
`1 / log(1.2 + relative frequency of c)`; the weight dictionary has one
entry per distinct class (class-level, not row-level), and it is handed to
both trainer fits as the constructor's class weighting. -/
theorem compute_class_weights_formula (y : List Int) (c : Int)
    (hny : y ≠ []) (hc : c ∈ y) :
    ((compute_class_weights y).find? (fun p => p.1 = c)).map Prod.snd
      = some (1 / Real.log ((1.2 : ℝ) + relFreq y c)) ∧
    (compute_class_weights y).length = y.dedup.length ∧
    (∀ (X : List ρ) (mask : Nat → Bool)
        (bestIterOf : List ρ → List Int → List ρ → List Int → Nat),
      (train_model X y mask bestIterOf).final.classWeight
        = compute_class_weights y) := by
  refine ⟨?_, ?_, fun _ _ _ => rfl⟩
  · rw [compute_class_weights_eq,
      find?_weight_map y.dedup c (List.mem_dedup.mpr hc)]
    have hcast : (((y.count c : ℚ) / (y.length : ℚ) : ℚ) : ℝ) = relFreq y c := by
      unfold relFreq
      push_cast
      ring
    rw [hcast]
    rfl
  · rw [compute_class_weights_eq, List.length_map]

/-- Witness for C6 on the series `[0, 0, 1]`. -/
theorem compute_class_weights_formula_witness :
    ((compute_class_weights [0, 0, 1]).find? (fun p => p.1 = 0)).map Prod.snd
      = some (1 / Real.log ((1.2 : ℝ) + relFreq [0, 0, 1] 0)) ∧
    (compute_class_weights [0, 0, 1]).length = ([0, 0, 1] : List Int).dedup.length ∧
    (∀ (X : List Nat) (mask : Nat → Bool)
        (bestIterOf : List Nat → List Int → List Nat → List Int → Nat),
      (train_model X [0, 0, 1] mask bestIterOf).final.classWeight
        = compute_class_weights [0, 0, 1]) :=
  compute_class_weights_formula [0, 0, 1] 0 (by decide) (by decide)

/-- Claim C10: `preprocess` requires `Child_Dependents`, `Deductible_Tier`
and `Acquisition_Channel` — its fill step is unguarded, so a frame missing
any of them makes it raise a KeyError — whereas every fill in `clean_data`
is guarded by a presence check, so `clean_data` succeeds on every frame,
with `cleanTotal` describing its output. -/
theorem preprocess_requires_fill_columns [Zero α] [One α] [Neg α]
    (sinF cosF : ℚ → α) (df df2 : DataFrame α) :
    ((df.hasCol "Child_Dependents" = false ∨ df.hasCol "Deductible_Tier" = false ∨
        df.hasCol "Acquisition_Channel" = false) →
      ∃ msg, preprocess sinF cosF df = .error msg) ∧
    clean_data df2 = .ok (cleanTotal df2) := by
  refine ⟨?_, clean_data_eq df2⟩
  intro h
  unfold preprocess
  dsimp only
  rcases h with h | h | h
  · have h1 : (preDrops df).getCol? "Child_Dependents" = none := by
      apply DataFrame.hasCol_false_getCol?
      rw [preDrops_hasCol_other df (by decide) (by decide) (by decide) (by decide)]
      exact h
    rw [h1]
    exact ⟨_, rfl⟩
  · cases hch : (preDrops df).getCol? "Child_Dependents" with
    | none => exact ⟨_, rfl⟩
    | some cChild =>
      dsimp only
      have h1 : ((preDrops df).setCol "Child_Dependents"
          (cChild.map (fillV (Value.num 0)))).getCol? "Deductible_Tier" = none := by
        rw [DataFrame.getCol?_setCol_other _ (by decide)]
        apply DataFrame.hasCol_false_getCol?
        rw [preDrops_hasCol_other df (by decide) (by decide) (by decide) (by decide)]
        exact h
      rw [h1]
      exact ⟨_, rfl⟩
  · cases hch : (preDrops df).getCol? "Child_Dependents" with
    | none => exact ⟨_, rfl⟩
    | some cChild =>
      dsimp only
      cases hded : ((preDrops df).setCol "Child_Dependents"
          (cChild.map (fillV (Value.num 0)))).getCol? "Deductible_Tier" with
      | none => exact ⟨_, rfl⟩
      | some cDed =>
        dsimp only
        have h1 : (((preDrops df).setCol "Child_Dependents"
            (cChild.map (fillV (Value.num 0)))).setCol "Deductible_Tier"
            (cDed.map (fillV (Value.str "Unknown")))).getCol? "Acquisition_Channel"
            = none := by
          rw [DataFrame.getCol?_setCol_other _ (by decide),
            DataFrame.getCol?_setCol_other _ (by decide)]
          apply DataFrame.hasCol_false_getCol?
          rw [preDrops_hasCol_other df (by decide) (by decide) (by decide) (by decide)]
          exact h
        rw [h1]
        exact ⟨_, rfl⟩

/-- Witness for C10: a frame with only `Deductible_Tier` and
`Acquisition_Channel` makes `preprocess` raise, while `clean_data` succeeds
on the same frame. -/
theorem preprocess_requires_fill_columns_witness :
    (∃ msg, preprocess (fun _ => (0 : ℚ)) (fun _ => 0)
        ⟨[("Deductible_Tier", [Value.na]), ("Acquisition_Channel", [Value.na])], []⟩
      = .error msg) ∧
    clean_data (⟨[("Deductible_Tier", [Value.na]),
        ("Acquisition_Channel", [Value.na])], []⟩ : DataFrame ℚ)
      = .ok (cleanTotal ⟨[("Deductible_Tier", [Value.na]),
        ("Acquisition_Channel", [Value.na])], []⟩) :=
  ⟨(preprocess_requires_fill_columns (fun _ => (0 : ℚ)) (fun _ => 0)
      ⟨[("Deductible_Tier", [Value.na]), ("Acquisition_Channel", [Value.na])], []⟩
      emptyDF).1 (Or.inl (by decide)),
   (preprocess_requires_fill_columns (fun _ => (0 : ℚ)) (fun _ => 0) emptyDF
      ⟨[("Deductible_Tier", [Value.na]), ("Acquisition_Channel", [Value.na])], []⟩).2⟩

/-- Claim C8: the Feature Engineer (spec-modelled) adds a `Family_Size`
column as the row-wise sum of the three dependent counts: every column of
the input stays present (additive only), the emitted column is the
cell-wise sum of the three inputs, and on any row where the three inputs
are non-negative numbers the emitted cell equals their sum exactly and is
non-negative. -/
theorem engineer_family_size [LinearOrderedField α] (df out : DataFrame α)
    (h : engineer df = .ok out) :
    (∀ c, df.hasCol c = true → out.hasCol c = true) ∧
    ∃ adult child infant,
      df.getCol? "Adult_Dependents" = some adult ∧
      df.getCol? "Child_Dependents" = some child ∧
      df.getCol? "Infant_Dependents" = some infant ∧
      out.getCol? "Family_Size"
        = some (List.zipWith vAdd (List.zipWith vAdd adult child) infant) ∧
      (∀ (i : Nat) (a b c2 : α), i < adult.length → i < child.length →
        i < infant.length →
        adult.getD i Value.na = Value.num a →
        child.getD i Value.na = Value.num b →
        infant.getD i Value.na = Value.num c2 →
        0 ≤ a → 0 ≤ b → 0 ≤ c2 →
        (List.zipWith vAdd (List.zipWith vAdd adult child) infant).getD i Value.na
            = Value.num (a + b + c2) ∧ 0 ≤ a + b + c2) := by
  unfold engineer at h
  cases hA : df.getCol? "Adult_Dependents" with
  | none => rw [hA] at h; cases h
  | some adult =>
  rw [hA] at h
  cases hB : df.getCol? "Child_Dependents" with
  | none => rw [hB] at h; cases h
  | some child =>
  rw [hB] at h
  cases hC : df.getCol? "Infant_Dependents" with
  | none => rw [hC] at h; cases h
  | some infant =>
  rw [hC] at h
  cases hD : df.getCol? "Previous_Claims_Filed" with
  | none => rw [hD] at h; cases h
  | some claims =>
  rw [hD] at h
  cases hE : df.getCol? "Years_Without_Claims" with
  | none => rw [hE] at h; cases h
  | some ywc =>
  rw [hE] at h
  cases hF : df.getCol? "Policy_Amendments_Count" with
  | none => rw [hF] at h; cases h
  | some amend =>
  rw [hF] at h
  cases hG : df.getCol? "Custom_Riders_Requested" with
  | none => rw [hG] at h; cases h
  | some riders =>
  rw [hG] at h
  cases hH : df.getCol? "Days_Since_Quote" with
  | none => rw [hH] at h; cases h
  | some dsq =>
  rw [hH] at h
  cases hI : df.getCol? "Underwriting_Processing_Days" with
  | none => rw [hI] at h; cases h
  | some upd =>
  rw [hI] at h
  cases hJ : df.getCol? "Estimated_Annual_Income" with
  | none => rw [hJ] at h; cases h
  | some income =>
  rw [hJ] at h
  cases hK : df.getCol? "Existing_Policyholder" with
  | none => rw [hK] at h; cases h
  | some exist2 =>
  rw [hK] at h
  dsimp only at h
  injection h with h2
  refine ⟨?_, adult, child, infant, rfl, rfl, rfl, ?_, ?_⟩
  · intro c hc
    rw [← h2]
    exact hasCol_setCol_mono (hasCol_setCol_mono (hasCol_setCol_mono
      (hasCol_setCol_mono (hasCol_setCol_mono (hasCol_setCol_mono hc _ _) _ _)
        _ _) _ _) _ _) _ _
  · rw [← h2, DataFrame.getCol?_setCol_other _ (by decide),
      DataFrame.getCol?_setCol_other _ (by decide),
      DataFrame.getCol?_setCol_other _ (by decide),
      DataFrame.getCol?_setCol_other _ (by decide),
      DataFrame.getCol?_setCol_other _ (by decide),
      DataFrame.getCol?_setCol_self]
  · intro i a b c2 hla hlb hlc ha hb hc2 hpa hpb hpc
    have hlen : i < (List.zipWith vAdd adult child).length := by
      rw [List.length_zipWith]
      omega
    have g1 : (List.zipWith vAdd adult child).getD i Value.na
        = vAdd (adult.getD i Value.na) (child.getD i Value.na) :=
      getD_zipWith vAdd adult child i hla hlb _ _ _
    have g2 : (List.zipWith vAdd (List.zipWith vAdd adult child) infant).getD i
          Value.na
        = vAdd ((List.zipWith vAdd adult child).getD i Value.na)
            (infant.getD i Value.na) :=
      getD_zipWith vAdd _ infant i hlen hlc _ _ _
    rw [g2, g1, ha, hb, hc2]
    exact ⟨rfl, add_nonneg (add_nonneg hpa hpb) hpc⟩

/-- A zero-row cleaned frame used to exercise the Feature Engineer (its
column values carry no cells, so the run is decidable by evaluation). -/
def engineerInput : DataFrame ℚ := ⟨[
  ("Adult_Dependents", []),
  ("Child_Dependents", []),
  ("Infant_Dependents", []),
  ("Previous_Claims_Filed", []),
  ("Years_Without_Claims", []),
  ("Policy_Amendments_Count", []),
  ("Custom_Riders_Requested", []),
  ("Days_Since_Quote", []),
  ("Underwriting_Processing_Days", []),
  ("Estimated_Annual_Income", []),
  ("Existing_Policyholder", [])], []⟩

/-- The frame the Feature Engineer produces on `engineerInput`. -/
def engineerOutput : DataFrame ℚ := ⟨[
  ("Adult_Dependents", []),
  ("Child_Dependents", []),
  ("Infant_Dependents", []),
  ("Previous_Claims_Filed", []),
  ("Years_Without_Claims", []),
  ("Policy_Amendments_Count", []),
  ("Custom_Riders_Requested", []),
  ("Days_Since_Quote", []),
  ("Underwriting_Processing_Days", []),
  ("Estimated_Annual_Income", []),
  ("Existing_Policyholder", []),
  ("Family_Size", []),
  ("Risk_Index", []),
  ("Policy_Engagement", []),
  ("Time_To_Convert", []),
  ("Income_Per_Dependent", []),
  ("Loyalty_Score", [])], []⟩

/-- Counterexample for C4 as stated: the `clean_data` Cleaner variant does
not drop a present `Broker_ID` column — the column is still there after
cleaning (that variant fills its missing values with -1 instead). -/
theorem cleaner_keeps_broker_counterexample :
    clean_data (⟨[("Broker_ID", [Value.num (1 : ℚ)])], []⟩ : DataFrame ℚ)
      = .ok ⟨[("Broker_ID", [Value.num (1 : ℚ)])], []⟩ ∧
    (⟨[("Broker_ID", [Value.num (1 : ℚ)])], []⟩ : DataFrame ℚ).hasCol "Broker_ID"
      = true := by
  refine ⟨by decide, by decide⟩

/-- Claim C4 (amended): the solution.py Cleaner (`preprocess`) drops all of
`Employer_ID`, `Broker_ID`, `Region_Code` and fills `Child_Dependents`
with 0 and `Deductible_Tier`/`Acquisition_Channel` with "Unknown"; the
features.py Cleaner (`clean_data`) drops only `Employer_ID`, keeps and
fills `Broker_ID` (missing → -1) and `Region_Code` (missing → "Unknown"),
and applies the same three fills when those columns are present. -/
theorem cleaner_drops_and_fills [Zero α] [One α] [Neg α]
    (sinF cosF : ℚ → α) (df df2 out : DataFrame α) :
    (preprocess sinF cosF df = .ok out →
      out.hasCol "Employer_ID" = false ∧
      out.hasCol "Broker_ID" = false ∧
      out.hasCol "Region_Code" = false ∧
      out.getCol? "Child_Dependents"
        = some (((df.getCol? "Child_Dependents").getD []).map
            (fillV (Value.num 0))) ∧
      out.getCol? "Deductible_Tier"
        = some (((df.getCol? "Deductible_Tier").getD []).map
            (fillV (Value.str "Unknown"))) ∧
      out.getCol? "Acquisition_Channel"
        = some (((df.getCol? "Acquisition_Channel").getD []).map
            (fillV (Value.str "Unknown")))) ∧
    ((cleanTotal df2).hasCol "Employer_ID" = false ∧
      (df2.hasCol "Broker_ID" = true →
        (cleanTotal df2).getCol? "Broker_ID"
          = some (((df2.getCol? "Broker_ID").getD []).map
              (fillV (Value.num (-1))))) ∧
      (df2.hasCol "Region_Code" = true →
        (cleanTotal df2).getCol? "Region_Code"
          = some (((df2.getCol? "Region_Code").getD []).map
              (fillV (Value.str "Unknown")))) ∧
      (df2.hasCol "Child_Dependents" = true →
        (cleanTotal df2).getCol? "Child_Dependents"
          = some (((df2.getCol? "Child_Dependents").getD []).map
              (fillV (Value.num 0)))) ∧
      (df2.hasCol "Deductible_Tier" = true →
        (cleanTotal df2).getCol? "Deductible_Tier"
          = some (((df2.getCol? "Deductible_Tier").getD []).map
              (fillV (Value.str "Unknown")))) ∧
      (df2.hasCol "Acquisition_Channel" = true →
        (cleanTotal df2).getCol? "Acquisition_Channel"
          = some (((df2.getCol? "Acquisition_Channel").getD []).map
              (fillV (Value.str "Unknown"))))) := by
  constructor
  · intro h
    obtain ⟨cChild, cDed, cAcq, hChild, hDed, hAcq, hout⟩ := preprocess_ok_elim h
    have hdfChild : df.getCol? "Child_Dependents" = some cChild := by
      rw [← preDrops_getCol?_other df (by decide) (by decide) (by decide) (by decide)]
      exact hChild
    have hdfDed : df.getCol? "Deductible_Tier" = some cDed := by
      rw [← preDrops_getCol?_other df (by decide) (by decide) (by decide) (by decide),
        ← DataFrame.getCol?_setCol_other (preDrops df)
          (show ("Deductible_Tier" : String) ≠ "Child_Dependents" by decide)
          (cChild.map (fillV (Value.num 0)))]
      exact hDed
    have hdfAcq : df.getCol? "Acquisition_Channel" = some cAcq := by
      rw [← preDrops_getCol?_other df (by decide) (by decide) (by decide) (by decide),
        ← DataFrame.getCol?_setCol_other (preDrops df)
          (show ("Acquisition_Channel" : String) ≠ "Child_Dependents" by decide)
          (cChild.map (fillV (Value.num 0))),
        ← DataFrame.getCol?_setCol_other
          ((preDrops df).setCol "Child_Dependents" (cChild.map (fillV (Value.num 0))))
          (show ("Acquisition_Channel" : String) ≠ "Deductible_Tier" by decide)
          (cDed.map (fillV (Value.str "Unknown")))]
      exact hAcq
    refine ⟨?_, ?_, ?_, ?_, ?_, ?_⟩
    · rw [hout, astypeAll_hasCol,
        monthStep_hasCol_other _ _ _ (by decide) (by decide) (by decide),
        DataFrame.hasCol_setCol_other _ (by decide),
        DataFrame.hasCol_setCol_other _ (by decide),
        DataFrame.hasCol_setCol_other _ (by decide),
        preDrops_hasCol_employer]
    · rw [hout, astypeAll_hasCol,
        monthStep_hasCol_other _ _ _ (by decide) (by decide) (by decide),
        DataFrame.hasCol_setCol_other _ (by decide),
        DataFrame.hasCol_setCol_other _ (by decide),
        DataFrame.hasCol_setCol_other _ (by decide),
        preDrops_hasCol_broker]
    · rw [hout, astypeAll_hasCol,
        monthStep_hasCol_other _ _ _ (by decide) (by decide) (by decide),
        DataFrame.hasCol_setCol_other _ (by decide),
        DataFrame.hasCol_setCol_other _ (by decide),
        DataFrame.hasCol_setCol_other _ (by decide),
        preDrops_hasCol_region]
    · rw [hout, astypeAll_getCol?,
        monthStep_getCol?_other _ _ _ (by decide) (by decide) (by decide),
        DataFrame.getCol?_setCol_other _ (by decide),
        DataFrame.getCol?_setCol_other _ (by decide),
        DataFrame.getCol?_setCol_self, hdfChild]
      rfl
    · rw [hout, astypeAll_getCol?,
        monthStep_getCol?_other _ _ _ (by decide) (by decide) (by decide),
        DataFrame.getCol?_setCol_other _ (by decide),
        DataFrame.getCol?_setCol_self, hdfDed]
      rfl
    · rw [hout, astypeAll_getCol?,
        monthStep_getCol?_other _ _ _ (by decide) (by decide) (by decide),
        DataFrame.getCol?_setCol_self, hdfAcq]
      rfl
  · refine ⟨?_, ?_, ?_, ?_, ?_, ?_⟩
    · unfold cleanTotal
      rw [astypeAll_hasCol, fillGuard_hasCol, fillGuard_hasCol, fillGuard_hasCol,
        fillGuard_hasCol, fillGuard_hasCol, dropGuard_hasCol_self]
    · intro hB
      cases hw : df2.getCol? "Broker_ID" with
      | none =>
        rw [DataFrame.getCol?_none_hasCol hw] at hB
        cases hB
      | some w =>
        have hfg4 : (fillGuard (fillGuard (fillGuard (fillGuard
            (dropGuard df2 "Employer_ID") "Child_Dependents" (Value.num 0))
            "Region_Code" (Value.str "Unknown")) "Deductible_Tier"
            (Value.str "Unknown")) "Acquisition_Channel"
            (Value.str "Unknown")).getCol? "Broker_ID" = some w := by
          rw [fillGuard_getCol?_other _ (by decide), fillGuard_getCol?_other _ (by decide),
            fillGuard_getCol?_other _ (by decide), fillGuard_getCol?_other _ (by decide),
            dropGuard_getCol?_other _ (by decide)]
          exact hw
        unfold cleanTotal
        rw [astypeAll_getCol?, fillGuard_getCol?_self _ hfg4]
        rfl
    · intro hR
      cases hw : df2.getCol? "Region_Code" with
      | none =>
        rw [DataFrame.getCol?_none_hasCol hw] at hR
        cases hR
      | some w =>
        have hfg1 : (fillGuard (dropGuard df2 "Employer_ID") "Child_Dependents"
            (Value.num 0)).getCol? "Region_Code" = some w := by
          rw [fillGuard_getCol?_other _ (by decide), dropGuard_getCol?_other _ (by decide)]
          exact hw
        unfold cleanTotal
        rw [astypeAll_getCol?, fillGuard_getCol?_other _ (by decide),
          fillGuard_getCol?_other _ (by decide), fillGuard_getCol?_other _ (by decide),
          fillGuard_getCol?_self _ hfg1]
        rfl
    · intro hC
      cases hw : df2.getCol? "Child_Dependents" with
      | none =>
        rw [DataFrame.getCol?_none_hasCol hw] at hC
        cases hC
      | some w =>
        have hfg0 : (dropGuard df2 "Employer_ID").getCol? "Child_Dependents"
            = some w := by
          rw [dropGuard_getCol?_other _ (by decide)]
          exact hw
        unfold cleanTotal
        rw [astypeAll_getCol?, fillGuard_getCol?_other _ (by decide),
          fillGuard_getCol?_other _ (by decide), fillGuard_getCol?_other _ (by decide),
          fillGuard_getCol?_other _ (by decide), fillGuard_getCol?_self _ hfg0]
        rfl
    · intro hD
      cases hw : df2.getCol? "Deductible_Tier" with
      | none =>
        rw [DataFrame.getCol?_none_hasCol hw] at hD
        cases hD
      | some w =>
        have hfg2 : (fillGuard (fillGuard (dropGuard df2 "Employer_ID")
            "Child_Dependents" (Value.num 0)) "Region_Code"
            (Value.str "Unknown")).getCol? "Deductible_Tier" = some w := by
          rw [fillGuard_getCol?_other _ (by decide), fillGuard_getCol?_other _ (by decide),
            dropGuard_getCol?_other _ (by decide)]
          exact hw
        unfold cleanTotal
        rw [astypeAll_getCol?, fillGuard_getCol?_other _ (by decide),
          fillGuard_getCol?_other _ (by decide), fillGuard_getCol?_self _ hfg2]
        rfl
    · intro hA
      cases hw : df2.getCol? "Acquisition_Channel" with
      | none =>
        rw [DataFrame.getCol?_none_hasCol hw] at hA
        cases hA
      | some w =>
        have hfg3 : (fillGuard (fillGuard (fillGuard (dropGuard df2 "Employer_ID")
            "Child_Dependents" (Value.num 0)) "Region_Code" (Value.str "Unknown"))
            "Deductible_Tier" (Value.str "Unknown")).getCol? "Acquisition_Channel"
            = some w := by
          rw [fillGuard_getCol?_other _ (by decide), fillGuard_getCol?_other _ (by decide),
            fillGuard_getCol?_other _ (by decide), dropGuard_getCol?_other _ (by decide)]
          exact hw
        unfold cleanTotal
        rw [astypeAll_getCol?, fillGuard_getCol?_other _ (by decide),
          fillGuard_getCol?_self _ hfg3]
        rfl

/-- Claim C1: for a model whose expected feature list is known (and
non-empty — a frame needs a column to carry its rows) and a rectangular
input frame containing `User_ID`, `predict` back-fills every expected
feature absent from the input with a constant default column ("Unknown"
for the categorical features, 0 otherwise) and returns the ids in input
order plus exactly one integer prediction per input row, the i-th
prediction being the classifier's answer on the i-th row of the aligned
feature table. -/
theorem predict_backfill_and_row_order [Zero α] (m : Model α) (df : DataFrame α)
    (fs : List String) (f : List (Value α) → Int)
    (hfs : m.featureNamesIn = some fs) (hne : fs ≠ [])
    (hid : df.hasCol "User_ID" = true) (hwf : df.wf)
    (hrow : ∀ X : DataFrame α, m.pred X
      = .ok ((List.range X.nRows).map (fun i => f (X.rowAt i)))) :
    predict m df = .ok ⟨(df.getCol? "User_ID").getD [],
      (List.range df.nRows).map
        (fun i => f (((backfill df fs).selectCols fs).rowAt i))⟩ ∧
    ((List.range df.nRows).map
        (fun i => f (((backfill df fs).selectCols fs).rowAt i))).length
      = df.nRows ∧
    (∀ c ∈ fs, df.hasCol c = false →
      ((backfill df fs).selectCols fs).getCol? c
        = some (List.replicate df.nRows (defaultVal c))) := by
  obtain ⟨hrows, hwfb, hpresb, hallb, hfillb⟩ := backfill_invariant fs df hwf
  have hXrows : ((backfill df fs).selectCols fs).nRows = df.nRows := by
    cases fs with
    | nil => exact absurd rfl hne
    | cons c0 rest =>
      rw [selectCols_nRows_cons]
      have hc0 : (backfill df (c0 :: rest)).hasCol c0 = true :=
        hallb c0 (List.mem_cons_self c0 rest)
      cases hw : (backfill df (c0 :: rest)).getCol? c0 with
      | none =>
        rw [DataFrame.getCol?_none_hasCol hw] at hc0
        cases hc0
      | some w =>
        have hlen := getCol?_length_of_wf hwfb hw
        show w.length = df.nRows
        rw [hlen, hrows]
  refine ⟨?_, by rw [List.length_map, List.length_range], ?_⟩
  · unfold predict predictRun
    rw [if_neg (by rw [hid]; simp)]
    dsimp only
    rw [hfs]
    dsimp only [Option.getD]
    rw [hrow ((backfill df fs).selectCols fs), hXrows]
  · intro c hc hcf
    rw [selectCols_getCol? _ hc, hfillb c hc hcf]
    rfl

/-- The model used by the C1 witness: one expected feature, constant
classifier answer 7. -/
def c1Model : Model ℚ :=
  ⟨some ["month_sin"], fun X => .ok ((List.range X.nRows).map (fun _ => 7))⟩

/-- The one-row frame used by the C1 witness: it has `User_ID` but lacks
the expected feature, which must be back-filled. -/
def c1In : DataFrame ℚ := ⟨[("User_ID", [Value.str "u1"])], []⟩

/-- Witness for C1 at a concrete model and frame. -/
theorem predict_backfill_and_row_order_witness :
    predict c1Model c1In = .ok ⟨(c1In.getCol? "User_ID").getD [],
      (List.range c1In.nRows).map
        (fun i => (fun _ => (7 : Int))
          (((backfill c1In ["month_sin"]).selectCols ["month_sin"]).rowAt i))⟩ ∧
    ((List.range c1In.nRows).map
        (fun i => (fun _ => (7 : Int))
          (((backfill c1In ["month_sin"]).selectCols ["month_sin"]).rowAt i))).length
      = c1In.nRows ∧
    (∀ c ∈ ["month_sin"], c1In.hasCol c = false →
      ((backfill c1In ["month_sin"]).selectCols ["month_sin"]).getCol? c
        = some (List.replicate c1In.nRows (defaultVal c))) :=
  predict_backfill_and_row_order c1Model c1In ["month_sin"] (fun _ => 7)
    rfl (by decide) (by decide) (by decide) (fun _ => rfl)

/-- Counterexample for C3 as stated: the code maps January to month index 1,
so the emitted `month_sin` value for January is `sin(2*pi*1/12) = 1/2`, not
0, and `month_cos` is `sqrt(3)/2`, not 1 — a gap of one half, beyond any
floating tolerance. -/
theorem month_encoding_jan_counterexample :
    monthNumV (α := ℝ) (Value.str "Jan") = 1 ∧
    monthSinF (monthNumV (α := ℝ) (Value.str "Jan")) = 1 / 2 ∧
    monthSinF (monthNumV (α := ℝ) (Value.str "Jan")) ≠ 0 ∧
    monthCosF (monthNumV (α := ℝ) (Value.str "Jan")) ≠ 1 := by
  have hJan : monthNumV (α := ℝ) (Value.str "Jan") = 1 := by decide
  refine ⟨hJan, ?_, ?_, ?_⟩
  · rw [hJan, monthSinF_one]
  · rw [hJan, monthSinF_one]
    norm_num
  · rw [hJan, monthCosF_one]
    have h2 : Real.sqrt 3 < 2 := by
      have h4 : Real.sqrt 4 = 2 := by
        rw [show (4 : ℝ) = 2 ^ 2 by norm_num, Real.sqrt_sq (by norm_num)]
      have := Real.sqrt_lt_sqrt (by norm_num : (0 : ℝ) ≤ 3) (by norm_num : (3 : ℝ) < 4)
      rwa [h4] at this
    intro hc
    rw [div_eq_one_iff_eq (by norm_num)] at hc
    linarith

/-- Claim C3 (amended): with `Policy_Start_Month` present, `preprocess` maps
each cell through the month dictionary to its index 1..12 (unmapped
strings, numbers and missing cells map to 1), emits `month_sin` and
`month_cos` as the encodings of that index, and drops the original column.
The real encodings `sin(2*pi*m/12)`, `cos(2*pi*m/12)` send January (index
1) to `(1/2, sqrt(3)/2)` — not `(0, 1)` — while months 12 and 1 do land at
small squared Euclidean distance `2 - sqrt(3) < 1` on the unit circle. -/
theorem month_encoding_amended [Zero α] (sinF cosF : ℚ → α)
    (df out : DataFrame α) (hpsm : df.hasCol "Policy_Start_Month" = true)
    (h : preprocess sinF cosF df = .ok out) :
    out.hasCol "Policy_Start_Month" = false ∧
    out.getCol? "month_sin"
      = some (((df.getCol? "Policy_Start_Month").getD []).map
          (fun v => Value.num (sinF (monthNumV v)))) ∧
    out.getCol? "month_cos"
      = some (((df.getCol? "Policy_Start_Month").getD []).map
          (fun v => Value.num (cosF (monthNumV v)))) ∧
    (∀ (s : String) (q : ℚ), MONTH_MAP.find? (fun p => p.1 = s) = some (s, q) →
      monthNumV (α := α) (Value.str s) = q) ∧
    (∀ s : String, MONTH_MAP.find? (fun p => p.1 = s) = none →
      monthNumV (α := α) (Value.str s) = 1) ∧
    monthNumV (α := α) Value.na = 1 ∧
    monthNumV (α := α) (Value.str "Jan") = 1 ∧
    monthNumV (α := α) (Value.str "Dec") = 12 ∧
    monthSinF 1 = 1 / 2 ∧ monthCosF 1 = Real.sqrt 3 / 2 ∧
    (monthSinF 12 - monthSinF 1) ^ 2 + (monthCosF 12 - monthCosF 1) ^ 2
      = 2 - Real.sqrt 3 ∧
    2 - Real.sqrt 3 < 1 := by
  obtain ⟨cChild, cDed, cAcq, hChild, hDed, hAcq, hout⟩ := preprocess_ok_elim h
  have hpsm5 : ((((preDrops df).setCol "Child_Dependents"
      (cChild.map (fillV (Value.num 0)))).setCol "Deductible_Tier"
      (cDed.map (fillV (Value.str "Unknown")))).setCol "Acquisition_Channel"
      (cAcq.map (fillV (Value.str "Unknown")))).getCol? "Policy_Start_Month"
      = df.getCol? "Policy_Start_Month" := by
    rw [DataFrame.getCol?_setCol_other _ (by decide),
      DataFrame.getCol?_setCol_other _ (by decide),
      DataFrame.getCol?_setCol_other _ (by decide),
      preDrops_getCol?_other df (by decide) (by decide) (by decide) (by decide)]
  cases hcol : df.getCol? "Policy_Start_Month" with
  | none =>
    rw [DataFrame.getCol?_none_hasCol hcol] at hpsm
    cases hpsm
  | some col =>
    rw [hcol] at hpsm5
    refine ⟨?_, ?_, ?_, ?_, ?_, rfl, rfl, rfl, monthSinF_one,
      monthCosF_one, month_dist_sq, month_dist_sq_small⟩
    · rw [hout, astypeAll_hasCol, monthStep_hasCol_PSM]
    · rw [hout, astypeAll_getCol?, monthStep_month_sin _ _ _ hpsm5, List.map_map]
      rfl
    · rw [hout, astypeAll_getCol?, monthStep_month_cos _ _ _ hpsm5, List.map_map]
      rfl
    · intro s q hf
      unfold monthNumV
      dsimp only
      rw [hf]
      rfl
    · intro s hf
      unfold monthNumV
      dsimp only
      rw [hf]
      rfl

/-- The frame (with a January start month) used by the C3 witness. -/
def c3In : DataFrame ℚ :=
  ⟨[("Policy_Start_Month", [Value.str "Jan"]), ("Child_Dependents", [Value.na]),
    ("Deductible_Tier", [Value.na]), ("Acquisition_Channel", [Value.na])], []⟩

/-- The preprocess output on `c3In` with both encodings instantiated to the
zero function. -/
def c3Out : DataFrame ℚ :=
  ⟨[("Child_Dependents", [Value.num 0]),
    ("Deductible_Tier", [Value.str "Unknown"]),
    ("Acquisition_Channel", [Value.str "Unknown"]),
    ("month_sin", [Value.num 0]), ("month_cos", [Value.num 0])],
    ["Deductible_Tier", "Acquisition_Channel"]⟩

/-- Witness for C3's amended theorem at a concrete frame. -/
theorem month_encoding_amended_witness :
    c3Out.hasCol "Policy_Start_Month" = false ∧
    c3Out.getCol? "month_sin"
      = some (((c3In.getCol? "Policy_Start_Month").getD []).map
          (fun v => Value.num ((fun _ => (0 : ℚ)) (monthNumV v)))) ∧
    c3Out.getCol? "month_cos"
      = some (((c3In.getCol? "Policy_Start_Month").getD []).map
          (fun v => Value.num ((fun _ => (0 : ℚ)) (monthNumV v)))) ∧
    (∀ (s : String) (q : ℚ), MONTH_MAP.find? (fun p => p.1 = s) = some (s, q) →
      monthNumV (α := ℚ) (Value.str s) = q) ∧
    (∀ s : String, MONTH_MAP.find? (fun p => p.1 = s) = none →
      monthNumV (α := ℚ) (Value.str s) = 1) ∧
    monthNumV (α := ℚ) Value.na = 1 ∧
    monthNumV (α := ℚ) (Value.str "Jan") = 1 ∧
    monthNumV (α := ℚ) (Value.str "Dec") = 12 ∧
    monthSinF 1 = 1 / 2 ∧ monthCosF 1 = Real.sqrt 3 / 2 ∧
    (monthSinF 12 - monthSinF 1) ^ 2 + (monthCosF 12 - monthCosF 1) ^ 2
      = 2 - Real.sqrt 3 ∧
    2 - Real.sqrt 3 < 1 :=
  month_encoding_amended (fun _ => (0 : ℚ)) (fun _ => (0 : ℚ)) c3In c3Out
    (by decide) (by decide)

/-- The serving-side cleaning input used by the C4 witness. -/
def c4PreIn : DataFrame ℚ :=
  ⟨[("Broker_ID", [Value.num 5]), ("Child_Dependents", [Value.na]),
    ("Deductible_Tier", [Value.na]), ("Acquisition_Channel", [Value.na])], []⟩

/-- The serving-side cleaning output on `c4PreIn`. -/
def c4PreOut : DataFrame ℚ :=
  ⟨[("Child_Dependents", [Value.num 0]),
    ("Deductible_Tier", [Value.str "Unknown"]),
    ("Acquisition_Channel", [Value.str "Unknown"])],
    ["Deductible_Tier", "Acquisition_Channel"]⟩

/-- The training-side cleaning input used by the C4 witness: all five
fillable columns present. -/
def c4CleanIn : DataFrame ℚ :=
  ⟨[("Broker_ID", [Value.na]), ("Region_Code", [Value.na]),
    ("Child_Dependents", [Value.na]), ("Deductible_Tier", [Value.na]),
    ("Acquisition_Channel", [Value.na])], []⟩

/-- Witness for C4's amended theorem, with every hypothesis discharged at
concrete frames. -/
theorem cleaner_drops_and_fills_witness :
    (c4PreOut.hasCol "Employer_ID" = false ∧
      c4PreOut.hasCol "Broker_ID" = false ∧
      c4PreOut.hasCol "Region_Code" = false ∧
      c4PreOut.getCol? "Child_Dependents"
        = some (((c4PreIn.getCol? "Child_Dependents").getD []).map
            (fillV (Value.num 0))) ∧
      c4PreOut.getCol? "Deductible_Tier"
        = some (((c4PreIn.getCol? "Deductible_Tier").getD []).map
            (fillV (Value.str "Unknown"))) ∧
      c4PreOut.getCol? "Acquisition_Channel"
        = some (((c4PreIn.getCol? "Acquisition_Channel").getD []).map
            (fillV (Value.str "Unknown")))) ∧
    ((cleanTotal c4CleanIn).hasCol "Employer_ID" = false ∧
      (cleanTotal c4CleanIn).getCol? "Broker_ID"
        = some (((c4CleanIn.getCol? "Broker_ID").getD []).map
            (fillV (Value.num (-1)))) ∧
      (cleanTotal c4CleanIn).getCol? "Region_Code"
        = some (((c4CleanIn.getCol? "Region_Code").getD []).map
            (fillV (Value.str "Unknown"))) ∧
      (cleanTotal c4CleanIn).getCol? "Child_Dependents"
        = some (((c4CleanIn.getCol? "Child_Dependents").getD []).map
            (fillV (Value.num 0))) ∧
      (cleanTotal c4CleanIn).getCol? "Deductible_Tier"
        = some (((c4CleanIn.getCol? "Deductible_Tier").getD []).map
            (fillV (Value.str "Unknown"))) ∧
      (cleanTotal c4CleanIn).getCol? "Acquisition_Channel"
        = some (((c4CleanIn.getCol? "Acquisition_Channel").getD []).map
            (fillV (Value.str "Unknown")))) := by
  have h := cleaner_drops_and_fills (α := ℚ) (fun _ => 0) (fun _ => 0)
    c4PreIn c4CleanIn c4PreOut
  exact ⟨h.1 (by decide),
    h.2.1, h.2.2.1 (by decide), h.2.2.2.1 (by decide),
    h.2.2.2.2.1 (by decide), h.2.2.2.2.2.1 (by decide),
    h.2.2.2.2.2.2 (by decide)⟩

/-- Witness for C8 on `engineerInput`. -/
theorem engineer_family_size_witness :
    (∀ c, engineerInput.hasCol c = true → engineerOutput.hasCol c = true) ∧
    ∃ adult child infant,
      engineerInput.getCol? "Adult_Dependents" = some adult ∧
      engineerInput.getCol? "Child_Dependents" = some child ∧
      engineerInput.getCol? "Infant_Dependents" = some infant ∧
      engineerOutput.getCol? "Family_Size"
        = some (List.zipWith vAdd (List.zipWith vAdd adult child) infant) ∧
      (∀ (i : Nat) (a b c2 : ℚ), i < adult.length → i < child.length →
        i < infant.length →
        adult.getD i Value.na = Value.num a →
        child.getD i Value.na = Value.num b →
        infant.getD i Value.na = Value.num c2 →
        0 ≤ a → 0 ≤ b → 0 ≤ c2 →
        (List.zipWith vAdd (List.zipWith vAdd adult child) infant).getD i Value.na
            = Value.num (a + b + c2) ∧ 0 ≤ a + b + c2) :=
  engineer_family_size engineerInput engineerOutput (by decide)

/-- Claim C5: cleaning is idempotent for both Cleaner variants.  A valid
record table has uniquely named columns; on such a table a successful run
of `preprocess` (resp. `clean_data`) yields a frame on which a second run
succeeds and is the identity. -/
theorem cleaning_idempotent [Zero α] [One α] [Neg α] (sinF cosF : ℚ → α)
    (df out df2 out2 : DataFrame α) :
    (df.names.Nodup → preprocess sinF cosF df = .ok out →
      preprocess sinF cosF out = .ok out) ∧
    (df2.names.Nodup → clean_data df2 = .ok out2 →
      clean_data out2 = .ok out2) := by
  constructor
  · intro hnd h
    obtain ⟨cChild, cDed, cAcq, hChild, hDed, hAcq, hout⟩ := preprocess_ok_elim h
    have f1 : out.getCol? "Child_Dependents"
        = some (cChild.map (fillV (Value.num 0))) := by
      rw [hout, astypeAll_getCol?,
        monthStep_getCol?_other _ _ _ (by decide) (by decide) (by decide),
        DataFrame.getCol?_setCol_other _ (by decide),
        DataFrame.getCol?_setCol_other _ (by decide),
        DataFrame.getCol?_setCol_self]
    have f2 : out.getCol? "Deductible_Tier"
        = some (cDed.map (fillV (Value.str "Unknown"))) := by
      rw [hout, astypeAll_getCol?,
        monthStep_getCol?_other _ _ _ (by decide) (by decide) (by decide),
        DataFrame.getCol?_setCol_other _ (by decide),
        DataFrame.getCol?_setCol_self]
    have f3 : out.getCol? "Acquisition_Channel"
        = some (cAcq.map (fillV (Value.str "Unknown"))) := by
      rw [hout, astypeAll_getCol?,
        monthStep_getCol?_other _ _ _ (by decide) (by decide) (by decide),
        DataFrame.getCol?_setCol_self]
    have f4 : out.hasCol "Employer_ID" = false := by
      rw [hout, astypeAll_hasCol,
        monthStep_hasCol_other _ _ _ (by decide) (by decide) (by decide),
        DataFrame.hasCol_setCol_other _ (by decide),
        DataFrame.hasCol_setCol_other _ (by decide),
        DataFrame.hasCol_setCol_other _ (by decide),
        preDrops_hasCol_employer]
    have f5 : out.hasCol "Broker_ID" = false := by
      rw [hout, astypeAll_hasCol,
        monthStep_hasCol_other _ _ _ (by decide) (by decide) (by decide),
        DataFrame.hasCol_setCol_other _ (by decide),
        DataFrame.hasCol_setCol_other _ (by decide),
        DataFrame.hasCol_setCol_other _ (by decide),
        preDrops_hasCol_broker]
    have f6 : out.hasCol "Region_Code" = false := by
      rw [hout, astypeAll_hasCol,
        monthStep_hasCol_other _ _ _ (by decide) (by decide) (by decide),
        DataFrame.hasCol_setCol_other _ (by decide),
        DataFrame.hasCol_setCol_other _ (by decide),
        DataFrame.hasCol_setCol_other _ (by decide),
        preDrops_hasCol_region]
    have f7 : out.hasCol "Purchased_Coverage_Bundle" = false := by
      rw [hout, astypeAll_hasCol,
        monthStep_hasCol_other _ _ _ (by decide) (by decide) (by decide),
        DataFrame.hasCol_setCol_other _ (by decide),
        DataFrame.hasCol_setCol_other _ (by decide),
        DataFrame.hasCol_setCol_other _ (by decide),
        preDrops_hasCol_target]
    have f8 : out.hasCol "Policy_Start_Month" = false := by
      rw [hout, astypeAll_hasCol, monthStep_hasCol_PSM]
    have f9 : out.names.Nodup := by
      rw [hout, names_astypeAll]
      exact nodup_names_monthStep (nodup_names_setCol (nodup_names_setCol
        (nodup_names_setCol (nodup_names_dropGuard (nodup_names_dropGuard
          (nodup_names_dropGuard (nodup_names_dropGuard hnd _) _) _) _) _ _) _ _) _ _)
    have f10 : ∀ c ∈ CATEGORICAL_COLUMNS, out.hasCol c = true → c ∈ out.cats := by
      intro c hcm hhc
      rw [hout, astypeAll_hasCol] at hhc
      rw [hout]
      exact astypeAll_mem_cats _ _ c hcm hhc
    unfold preprocess
    dsimp only
    have hpre : preDrops out = out := by
      unfold preDrops
      rw [dropGuard_id_of_absent f4, dropGuard_id_of_absent f5,
        dropGuard_id_of_absent f6, dropGuard_id_of_absent f7]
    rw [hpre, f1]
    dsimp only
    have hs1 : out.setCol "Child_Dependents"
        ((cChild.map (fillV (Value.num 0))).map (fillV (Value.num 0))) = out := by
      rw [map_fillV_idem (by intro hx; injection hx) cChild]
      exact setCol_id f9 f1
    rw [hs1, f2]
    dsimp only
    have hs2 : out.setCol "Deductible_Tier"
        ((cDed.map (fillV (Value.str "Unknown"))).map
          (fillV (Value.str "Unknown"))) = out := by
      rw [map_fillV_idem (by intro hx; injection hx) cDed]
      exact setCol_id f9 f2
    rw [hs2, f3]
    dsimp only
    have hs3 : out.setCol "Acquisition_Channel"
        ((cAcq.map (fillV (Value.str "Unknown"))).map
          (fillV (Value.str "Unknown"))) = out := by
      rw [map_fillV_idem (by intro hx; injection hx) cAcq]
      exact setCol_id f9 f3
    rw [hs3]
    have hnone : out.getCol? "Policy_Start_Month" = none :=
      DataFrame.hasCol_false_getCol? f8
    have hms : monthStep sinF cosF out = out := monthStep_id_of_absent hnone
    have hast : astypeAll out CATEGORICAL_COLUMNS = out := astypeAll_id _ _ f10
    clear hout h hChild hDed hAcq hs1 hs2 hs3 f1 f2 f3 f4 f5 f6 f7 f8 f9 f10 hpre hnone hnd
    rw [hms, hast]
  · intro hnd2 h2
    rw [clean_data_eq] at h2
    have h3 : cleanTotal df2 = out2 := Except.ok.inj h2
    subst h3
    have gnd : (cleanTotal df2).names.Nodup := by
      unfold cleanTotal
      rw [names_astypeAll]
      exact nodup_names_fillGuard (nodup_names_fillGuard (nodup_names_fillGuard
        (nodup_names_fillGuard (nodup_names_fillGuard
          (nodup_names_dropGuard hnd2 _) _ _) _ _) _ _) _ _) _ _
    have g1 : (cleanTotal df2).hasCol "Employer_ID" = false := by
      unfold cleanTotal
      rw [astypeAll_hasCol, fillGuard_hasCol, fillGuard_hasCol, fillGuard_hasCol,
        fillGuard_hasCol, fillGuard_hasCol, dropGuard_hasCol_self]
    have ghas : ∀ c : String, c ≠ "Employer_ID" →
        (cleanTotal df2).hasCol c = df2.hasCol c := by
      intro c hc
      unfold cleanTotal
      rw [astypeAll_hasCol, fillGuard_hasCol, fillGuard_hasCol, fillGuard_hasCol,
        fillGuard_hasCol, fillGuard_hasCol, dropGuard_hasCol_other _ hc]
    have gcats : ∀ c ∈ FEAT_CATEGORICAL,
        (cleanTotal df2).hasCol c = true → c ∈ (cleanTotal df2).cats := by
      intro c hcm hhc
      unfold cleanTotal at hhc ⊢
      rw [astypeAll_hasCol] at hhc
      exact astypeAll_mem_cats _ _ c hcm hhc
    have gChild : fillGuard (cleanTotal df2) "Child_Dependents" (Value.num 0)
        = cleanTotal df2 := by
      by_cases hc : df2.hasCol "Child_Dependents" = true
      · cases hw : df2.getCol? "Child_Dependents" with
        | none =>
          rw [DataFrame.getCol?_none_hasCol hw] at hc
          cases hc
        | some w =>
          have hoc : (cleanTotal df2).getCol? "Child_Dependents"
              = some (w.map (fillV (Value.num 0))) := by
            unfold cleanTotal
            rw [astypeAll_getCol?, fillGuard_getCol?_other _ (by decide),
              fillGuard_getCol?_other _ (by decide),
              fillGuard_getCol?_other _ (by decide),
              fillGuard_getCol?_other _ (by decide),
              fillGuard_getCol?_self _
                (by rw [dropGuard_getCol?_other _ (by decide)]; exact hw)]
          exact fillGuard_id_of_filled gnd hoc
            (map_fillV_idem (by intro hx; injection hx) w)
      · have habs : (cleanTotal df2).hasCol "Child_Dependents" = false := by
          rw [ghas _ (by decide)]
          simpa using hc
        exact fillGuard_id_of_absent (DataFrame.hasCol_false_getCol? habs) _
    have gRegion : fillGuard (cleanTotal df2) "Region_Code" (Value.str "Unknown")
        = cleanTotal df2 := by
      by_cases hc : df2.hasCol "Region_Code" = true
      · cases hw : df2.getCol? "Region_Code" with
        | none =>
          rw [DataFrame.getCol?_none_hasCol hw] at hc
          cases hc
        | some w =>
          have hoc : (cleanTotal df2).getCol? "Region_Code"
              = some (w.map (fillV (Value.str "Unknown"))) := by
            unfold cleanTotal
            rw [astypeAll_getCol?, fillGuard_getCol?_other _ (by decide),
              fillGuard_getCol?_other _ (by decide),
              fillGuard_getCol?_other _ (by decide),
              fillGuard_getCol?_self _
                (by rw [fillGuard_getCol?_other _ (by decide),
                  dropGuard_getCol?_other _ (by decide)]; exact hw)]
          exact fillGuard_id_of_filled gnd hoc
            (map_fillV_idem (by intro hx; injection hx) w)
      · have habs : (cleanTotal df2).hasCol "Region_Code" = false := by
          rw [ghas _ (by decide)]
          simpa using hc
        exact fillGuard_id_of_absent (DataFrame.hasCol_false_getCol? habs) _
    have gDed : fillGuard (cleanTotal df2) "Deductible_Tier" (Value.str "Unknown")
        = cleanTotal df2 := by
      by_cases hc : df2.hasCol "Deductible_Tier" = true
      · cases hw : df2.getCol? "Deductible_Tier" with
        | none =>
          rw [DataFrame.getCol?_none_hasCol hw] at hc
          cases hc
        | some w =>
          have hoc : (cleanTotal df2).getCol? "Deductible_Tier"
              = some (w.map (fillV (Value.str "Unknown"))) := by
            unfold cleanTotal
            rw [astypeAll_getCol?, fillGuard_getCol?_other _ (by decide),
              fillGuard_getCol?_other _ (by decide),
              fillGuard_getCol?_self _
                (by rw [fillGuard_getCol?_other _ (by decide),
                  fillGuard_getCol?_other _ (by decide),
                  dropGuard_getCol?_other _ (by decide)]; exact hw)]
          exact fillGuard_id_of_filled gnd hoc
            (map_fillV_idem (by intro hx; injection hx) w)
      · have habs : (cleanTotal df2).hasCol "Deductible_Tier" = false := by
          rw [ghas _ (by decide)]
          simpa using hc
        exact fillGuard_id_of_absent (DataFrame.hasCol_false_getCol? habs) _
    have gAcq : fillGuard (cleanTotal df2) "Acquisition_Channel"
        (Value.str "Unknown") = cleanTotal df2 := by
      by_cases hc : df2.hasCol "Acquisition_Channel" = true
      · cases hw : df2.getCol? "Acquisition_Channel" with
        | none =>
          rw [DataFrame.getCol?_none_hasCol hw] at hc
          cases hc
        | some w =>
          have hoc : (cleanTotal df2).getCol? "Acquisition_Channel"
              = some (w.map (fillV (Value.str "Unknown"))) := by
            unfold cleanTotal
            rw [astypeAll_getCol?, fillGuard_getCol?_other _ (by decide),
              fillGuard_getCol?_self _
                (by rw [fillGuard_getCol?_other _ (by decide),
                  fillGuard_getCol?_other _ (by decide),
                  fillGuard_getCol?_other _ (by decide),
                  dropGuard_getCol?_other _ (by decide)]; exact hw)]
          exact fillGuard_id_of_filled gnd hoc
            (map_fillV_idem (by intro hx; injection hx) w)
      · have habs : (cleanTotal df2).hasCol "Acquisition_Channel" = false := by
          rw [ghas _ (by decide)]
          simpa using hc
        exact fillGuard_id_of_absent (DataFrame.hasCol_false_getCol? habs) _
    have gBroker : fillGuard (cleanTotal df2) "Broker_ID" (Value.num (-1))
        = cleanTotal df2 := by
      by_cases hc : df2.hasCol "Broker_ID" = true
      · cases hw : df2.getCol? "Broker_ID" with
        | none =>
          rw [DataFrame.getCol?_none_hasCol hw] at hc
          cases hc
        | some w =>
          have hoc : (cleanTotal df2).getCol? "Broker_ID"
              = some (w.map (fillV (Value.num (-1)))) := by
            unfold cleanTotal
            rw [astypeAll_getCol?,
              fillGuard_getCol?_self _
                (by rw [fillGuard_getCol?_other _ (by decide),
                  fillGuard_getCol?_other _ (by decide),
                  fillGuard_getCol?_other _ (by decide),
                  fillGuard_getCol?_other _ (by decide),
                  dropGuard_getCol?_other _ (by decide)]; exact hw)]
          exact fillGuard_id_of_filled gnd hoc
            (map_fillV_idem (by intro hx; injection hx) w)
      · have habs : (cleanTotal df2).hasCol "Broker_ID" = false := by
          rw [ghas _ (by decide)]
          simpa using hc
        exact fillGuard_id_of_absent (DataFrame.hasCol_false_getCol? habs) _
    have key : cleanTotal (cleanTotal df2) = cleanTotal df2 := by
      show astypeAll (fillGuard (fillGuard (fillGuard (fillGuard
          (fillGuard (dropGuard (cleanTotal df2) "Employer_ID")
          "Child_Dependents" (Value.num 0))
          "Region_Code" (Value.str "Unknown"))
          "Deductible_Tier" (Value.str "Unknown"))
          "Acquisition_Channel" (Value.str "Unknown"))
          "Broker_ID" (Value.num (-1)))
          FEAT_CATEGORICAL
        = cleanTotal df2
      rw [dropGuard_id_of_absent g1, gChild, gRegion, gDed, gAcq, gBroker,
        astypeAll_id _ _ gcats]
    exact (clean_data_eq (cleanTotal df2)).trans (congrArg Except.ok key)

/-- The serving-side frame used by the C5 witness. -/
def c5In : DataFrame ℚ :=
  ⟨[("Child_Dependents", [Value.na]), ("Deductible_Tier", [Value.na]),
    ("Acquisition_Channel", [Value.na])], []⟩

/-- The preprocess output on `c5In` (already clean, so a second run is the
identity). -/
def c5Out : DataFrame ℚ :=
  ⟨[("Child_Dependents", [Value.num 0]),
    ("Deductible_Tier", [Value.str "Unknown"]),
    ("Acquisition_Channel", [Value.str "Unknown"])],
    ["Deductible_Tier", "Acquisition_Channel"]⟩

/-- The training-side frame used by the C5 witness. -/
def c6In : DataFrame ℚ := ⟨[("Region_Code", [Value.na])], []⟩

/-- The clean_data output on `c6In`. -/
def c6Out : DataFrame ℚ :=
  ⟨[("Region_Code", [Value.str "Unknown"])], ["Region_Code"]⟩

/-- Witness for C5: a second cleaning run on concrete cleaned frames is the
identity for both variants. -/
theorem cleaning_idempotent_witness :
    preprocess (fun _ => (0 : ℚ)) (fun _ => 0) c5Out = .ok c5Out ∧
    clean_data c6Out = .ok c6Out :=
  ⟨(cleaning_idempotent (fun _ => (0 : ℚ)) (fun _ => 0) c5In c5Out c6In
      c6Out).1 (by decide) (by decide),
   (cleaning_idempotent (fun _ => (0 : ℚ)) (fun _ => 0) c5In c5Out c6In
      c6Out).2 (by decide) (by decide)⟩

end DataQuest
